import Mathlib

/-!
Shallow embedding of the `TCP-client-server` repository: two Arduino sketches
(a TCP client and a TCP server) that each run a non-blocking connection
lifecycle state machine driven by a variable `connectionState`.

Modelling conventions:
* Every hardware / network interaction (`millis()`, `WiFi.status()`,
  `WiFi.begin(...)`, `client.connect(...)`, `client.connected()`,
  `server.available()`, `client.available()` / `client.read()`) is an input
  supplied by an environment record `Env`, one record per pass of `loop()`.
  Each pass observes a single timestamp `Env.now` (the value of `millis()`
  during that pass); time advances between passes.
* The global mutable variables of each sketch form a `State` record.
  `unsigned long` millisecond timestamps and counters are modelled as `Nat`
  (the spec treats the clock as a monotonic millisecond counter; no
  wrap-around is modelled).
* Serial/diagnostic output and `digitalWrite` pin signalling carry no state,
  except where a claim is about an emission; those emissions are returned as
  explicit `Bool`/`Option` components next to the updated state.
* Each C procedure of the sketch becomes a Lean function of the same name
  that returns the updated state (plus its observable emissions); the
  `loop()` body becomes `loopPass`, invoking them in the source's order.
-/

namespace TCPclient

/-- The client sketch's `ConnectionState_type` enum. -/
inductive ConnectionState where
  | conn_0_wifiConnectNow
  | conn_1_wifiDelayConnection
  | conn_2_wifiConnected
  | conn_3_clientDelayConnection
  | conn_4_clientConnected
  | conn_5_requestSent
  | conn_6_stopClientNow
  | conn_7_report
deriving DecidableEq

open ConnectionState

/-- Numeric value of the C enum constant (used for the comparison
`connectionState < conn_2_wifiConnected` in `connectToServer`). -/
def ConnectionState.toNat : ConnectionState → Nat
  | conn_0_wifiConnectNow => 0
  | conn_1_wifiDelayConnection => 1
  | conn_2_wifiConnected => 2
  | conn_3_clientDelayConnection => 3
  | conn_4_clientConnected => 4
  | conn_5_requestSent => 5
  | conn_6_stopClientNow => 6
  | conn_7_report => 7

/-- Constant `const unsigned long wifiConnectDelay { 5000 }`. -/
def wifiConnectDelay : Nat := 5000

/-- Constant `const unsigned long clientConnectDelay { 100 }`. -/
def clientConnectDelay : Nat := 100

/-- Constant `const unsigned long readingTimeOut { 10000 }`. -/
def readingTimeOut : Nat := 10000

/-- Constant `const unsigned long heartbeatPeriod { 1000 }`. -/
def heartbeatPeriod : Nat := 1000

/-- External inputs observed by one pass of the client's `loop()`. -/
structure Env where
  now : Nat
  wifiStatusConnected : Bool
  wifiBeginOk : Bool
  serverAcceptsConnect : Bool
  clientConnected : Bool
  incoming : Option Char
deriving DecidableEq

/-- The client sketch's global mutable variables. -/
structure State where
  connectionState : ConnectionState
  messageCounter : Nat
  errors : Nat
  startReadingAt : Nat
  lastHeartbeat : Nat
  wifiConnectTime : Nat
  clientStopTime : Nat
  wifiConnections : Nat
  clientConnections : Nat
  serverResponse : List Char
deriving DecidableEq

/-- Global variable initial values of the client sketch. -/
def initState : State :=
  { connectionState := conn_0_wifiConnectNow
    messageCounter := 1230001
    errors := 0
    startReadingAt := 0
    lastHeartbeat := 0
    wifiConnectTime := 0
    clientStopTime := 0
    wifiConnections := 0
    clientConnections := 0
    serverResponse := [] }

/-- Common tail of `connectToWiFi`: `WiFi.disconnect(); WiFi.end();
WiFi.begin(ssid, pass)`, then the success / failure branch, and in both
cases `wifiConnectTime = millis()` recorded after the attempt. -/
def attemptWifi (env : Env) (s : State) : State :=
  if env.wifiBeginOk then
    { s with connectionState := conn_2_wifiConnected, wifiConnectTime := env.now }
  else
    { s with connectionState := conn_1_wifiDelayConnection, wifiConnectTime := env.now }

/-- Client `connectToWiFi()`. The returned `Bool` records whether a WiFi
association attempt (`WiFi.begin`) was issued during this tick. -/
def connectToWiFi (env : Env) (s : State) : State × Bool :=
  match s.connectionState with
  | conn_0_wifiConnectNow =>
      (attemptWifi env { s with wifiConnections := s.wifiConnections + 1 }, true)
  | conn_1_wifiDelayConnection =>
      if s.wifiConnectTime + wifiConnectDelay > env.now then (s, false)
      else (attemptWifi env s, true)
  | _ =>
      if env.wifiStatusConnected then (s, false)
      else if s.wifiConnectTime + wifiConnectDelay > env.now then (s, false)
      else (attemptWifi env { s with wifiConnections := s.wifiConnections + 1 }, true)

/-- The client-connection attempt at the end of `connectToServer`:
`client.connect(serverAddress, serverPort)` with its success / failure
branches. -/
def attemptServerConnect (env : Env) (s : State) : State × Bool :=
  if env.serverAcceptsConnect then
    ({ s with clientConnections := s.clientConnections + 1,
              connectionState := conn_4_clientConnected }, true)
  else
    ({ s with errors := s.errors + 1, clientStopTime := env.now,
              connectionState := conn_3_clientDelayConnection }, true)

/-- Client `connectToServer()`. The returned `Bool` records whether a
`client.connect` attempt was issued during this tick. -/
def connectToServer (env : Env) (s : State) : State × Bool :=
  if s.connectionState.toNat < conn_2_wifiConnected.toNat then (s, false)
  else
    match s.connectionState with
    | conn_2_wifiConnected => attemptServerConnect env s
    | conn_3_clientDelayConnection =>
        if s.clientStopTime + clientConnectDelay > env.now then (s, false)
        else attemptServerConnect env { s with connectionState := conn_2_wifiConnected }
    | _ =>
        if env.clientConnected then (s, false)
        else ({ s with errors := s.errors + 1,
                       connectionState := conn_6_stopClientNow }, false)

/-- Client `sendRequestToServer()`: `client.println(messageCounter)`, reset
the response buffer, record `startReadingAt`, go to `conn_5_requestSent`.
The returned `Option Nat` is the transmitted counter value, if any. -/
def sendRequestToServer (env : Env) (s : State) : State × Option Nat :=
  if s.connectionState ≠ conn_4_clientConnected then (s, none)
  else ({ s with serverResponse := [], startReadingAt := env.now,
                 connectionState := conn_5_requestSent }, some s.messageCounter)

/-- Client `assembleServerResponse()`: read one character if available
(append it unless it is CR or LF; on LF increment `messageCounter` and go to
`conn_6_stopClientNow`); otherwise check the reading timeout. The returned
`Bool` records whether a line feed was consumed during this tick. -/
def assembleServerResponse (env : Env) (s : State) : State × Bool :=
  if s.connectionState ≠ conn_5_requestSent then (s, false)
  else
    match env.incoming with
    | some c =>
        let s1 := if c = '\r' ∨ c = '\n' then s
                  else { s with serverResponse := s.serverResponse ++ [c] }
        if c = '\n' then
          ({ s1 with messageCounter := s1.messageCounter + 1,
                     connectionState := conn_6_stopClientNow }, true)
        else (s1, false)
    | none =>
        if s.startReadingAt + readingTimeOut < env.now then
          ({ s with errors := s.errors + 1,
                    connectionState := conn_6_stopClientNow }, false)
        else (s, false)

/-- Client `stopTCPconnection()`: `client.stop()`, record `clientStopTime`
after the stop, go to `conn_7_report`. The returned `Bool` records whether
the stop was performed during this tick. -/
def stopTCPconnection (env : Env) (s : State) : State × Bool :=
  if s.connectionState ≠ conn_6_stopClientNow then (s, false)
  else ({ s with clientStopTime := env.now,
                 connectionState := conn_7_report }, true)

/-- Client `lastConnectionReport()`: print the summary and go to
`conn_3_clientDelayConnection`. (The `reset wifi every 128 client
connections` branch is commented out in the source and hence not
modelled.) -/
def lastConnectionReport (s : State) : State :=
  if s.connectionState ≠ conn_7_report then s
  else { s with connectionState := conn_3_clientDelayConnection }

/-- Client `heartbeat()`. The returned `Bool` records whether the heartbeat
line was printed during this tick. -/
def heartbeat (env : Env) (s : State) : State × Bool :=
  if s.lastHeartbeat + heartbeatPeriod < env.now then
    ({ s with lastHeartbeat := env.now }, true)
  else (s, false)

/-- Observable emissions of one pass of the client's `loop()`. -/
structure PassLog where
  wifiAttempt : Bool
  connectAttempt : Bool
  sentRequest : Option Nat
  gotLF : Bool
  stopped : Bool
  heartbeatEmitted : Bool
deriving DecidableEq

/-- One pass of the client's `loop()`: the six state-driven procedures in
source order, then the time-driven `heartbeat()`. -/
def loopPass (env : Env) (s : State) : State × PassLog :=
  let w := connectToWiFi env s
  let t := connectToServer env w.1
  let q := sendRequestToServer env t.1
  let a := assembleServerResponse env q.1
  let p := stopTCPconnection env a.1
  let r := lastConnectionReport p.1
  let h := heartbeat env r
  (h.1, { wifiAttempt := w.2, connectAttempt := t.2, sentRequest := q.2,
          gotLF := a.2, stopped := p.2, heartbeatEmitted := h.2 })

/-- Repeated invocation of `loop()`, one `Env` per pass. -/
def run (envs : List Env) (s : State) : State :=
  match envs with
  | [] => s
  | e :: rest => run rest (loopPass e s).1

/-- Default environment used only to give `List.getD` a fallback. -/
def dfltEnv : Env :=
  { now := 0, wifiStatusConnected := true, wifiBeginOk := false,
    serverAcceptsConnect := false, clientConnected := true, incoming := none }

/-- Environment of pass `i`. -/
def envAt (envs : List Env) (i : Nat) : Env := envs.getD i dfltEnv

/-- Value of `millis()` as observed by pass `i`. -/
def nowAt (envs : List Env) (i : Nat) : Nat := (envAt envs i).now

/-- State at the start of pass `i` of a run from `s0`. -/
def stateAt (s0 : State) (envs : List Env) (i : Nat) : State :=
  run (envs.take i) s0

/-- Emission log of pass `i` of a run from `s0`. -/
def logAt (s0 : State) (envs : List Env) (i : Nat) : PassLog :=
  (loopPass (envAt envs i) (stateAt s0 envs i)).2

/-- The timestamps supplied to the passes never decrease (the clock is
monotonic). -/
def nowMonotone (envs : List Env) : Prop :=
  ∀ i j, i ≤ j → j < envs.length → nowAt envs i ≤ nowAt envs j


/-- Number of passes of a run in which a line feed terminating a server
response is consumed (`(loopPass _ _).2.gotLF`). -/
def countLF (s : State) : List Env → Nat
  | [] => 0
  | e :: rest => (if (loopPass e s).2.gotLF then 1 else 0) + countLF (loopPass e s).1 rest

end TCPclient

namespace TCPserver

/-- The server sketch's `ConnectionState_type` enum. -/
inductive ConnectionState where
  | conn_0_wifiConnectNow
  | conn_1_wifiDelayConnection
  | conn_2_wifiConnected
  | conn_3_clientDelayConnection
  | conn_4_clientConnected
  | conn_5_requestReceived
  | conn_6_stopClientNow
  | conn_7_report
deriving DecidableEq

open ConnectionState

/-- Numeric value of the C enum constant (used for the comparison
`connectionState < conn_2_wifiConnected` in `connectToClient` and the
comparisons inside `heartbeat`). -/
def ConnectionState.toNat : ConnectionState → Nat
  | conn_0_wifiConnectNow => 0
  | conn_1_wifiDelayConnection => 1
  | conn_2_wifiConnected => 2
  | conn_3_clientDelayConnection => 3
  | conn_4_clientConnected => 4
  | conn_5_requestReceived => 5
  | conn_6_stopClientNow => 6
  | conn_7_report => 7

/-- Constant `const unsigned long wifiConnectDelay { 5000 }`. -/
def wifiConnectDelay : Nat := 5000

/-- Constant `const unsigned long clientConnectDelay { 100 }`. -/
def clientConnectDelay : Nat := 100

/-- Constant `const unsigned long readingTimeOut { 10000 }`. -/
def readingTimeOut : Nat := 10000

/-- Constant `const unsigned long heartbeatPeriod { 1000 }`. -/
def heartbeatPeriod : Nat := 1000

/-- Constant `const unsigned long reportingTimeout { 120000 }`. -/
def reportingTimeout : Nat := 120000

/-- External inputs observed by one pass of the server's `loop()`.
`acceptHasClient` is the outcome of `client = server.available()` followed
by `client.connected()`; `clientConnected` is `client.connected()` for the
already-accepted client in the liveness poll. -/
structure Env where
  now : Nat
  wifiStatusConnected : Bool
  wifiBeginOk : Bool
  acceptHasClient : Bool
  clientConnected : Bool
  incoming : Option Char
deriving DecidableEq

/-- The server sketch's global mutable variables. -/
structure State where
  connectionState : ConnectionState
  errors : Nat
  startReadingAt : Nat
  lastHeartbeat : Nat
  wifiConnectTime : Nat
  clientStopTime : Nat
  wifiConnections : Nat
  clientConnections : Nat
  ConnTriesAfterStateChange : Nat
  reportingStartTime : Nat
  reportToSerialMonitor : Bool
  clientRequest : List Char
deriving DecidableEq

/-- Global variable initial values of the server sketch. -/
def initState : State :=
  { connectionState := conn_0_wifiConnectNow
    errors := 0
    startReadingAt := 0
    lastHeartbeat := 0
    wifiConnectTime := 0
    clientStopTime := 0
    wifiConnections := 0
    clientConnections := 0
    ConnTriesAfterStateChange := 0
    reportingStartTime := 0
    reportToSerialMonitor := true
    clientRequest := [] }

/-- Common tail of the server's `connectToWiFi`: re-enable reporting and
re-trigger the reporting window before the attempt, then
`WiFi.disconnect(); WiFi.end(); WiFi.config(...); WiFi.begin(ssid, pass)`
with its success / failure branches (on success `ConnTriesAfterStateChange`
is reset and `server.begin()` is issued), and in both cases
`wifiConnectTime = millis()` recorded after the attempt. -/
def attemptWifi (env : Env) (s : State) : State :=
  let s1 := { s with reportToSerialMonitor := true, reportingStartTime := env.now }
  if env.wifiBeginOk then
    { s1 with ConnTriesAfterStateChange := 0,
              connectionState := conn_2_wifiConnected, wifiConnectTime := env.now }
  else
    { s1 with connectionState := conn_1_wifiDelayConnection, wifiConnectTime := env.now }

/-- Server `connectToWiFi()`. The returned `Bool` records whether a WiFi
association attempt (`WiFi.begin`) was issued during this tick. -/
def connectToWiFi (env : Env) (s : State) : State × Bool :=
  match s.connectionState with
  | conn_0_wifiConnectNow =>
      (attemptWifi env { s with wifiConnections := s.wifiConnections + 1 }, true)
  | conn_1_wifiDelayConnection =>
      if s.wifiConnectTime + wifiConnectDelay > env.now then (s, false)
      else (attemptWifi env s, true)
  | _ =>
      if env.wifiStatusConnected then (s, false)
      else if s.wifiConnectTime + wifiConnectDelay > env.now then (s, false)
      else (attemptWifi env { s with wifiConnections := s.wifiConnections + 1 }, true)

/-- The accept poll at the end of `connectToClient`: the rate-limited `<`
`>` diagnostic around `client = server.available()`, the post-increment of
`ConnTriesAfterStateChange`, and the success branch entered when the polled
client reports connected. -/
def pollForClient (env : Env) (s : State) : State × Bool × Bool :=
  let diag := decide (s.ConnTriesAfterStateChange ≤ 20) && s.reportToSerialMonitor
  let s1 := { s with ConnTriesAfterStateChange := s.ConnTriesAfterStateChange + 1 }
  if env.acceptHasClient then
    ({ s1 with reportToSerialMonitor := true, reportingStartTime := env.now,
               clientConnections := s1.clientConnections + 1,
               clientRequest := [], startReadingAt := env.now,
               connectionState := conn_4_clientConnected }, true, diag)
  else (s1, true, diag)

/-- Server `connectToClient()`. The returned pair of `Bool`s records
whether an accept poll (`server.available()`) was issued during this tick,
and whether the per-poll diagnostic was emitted. -/
def connectToClient (env : Env) (s : State) : State × Bool × Bool :=
  if s.connectionState.toNat < conn_2_wifiConnected.toNat then (s, false, false)
  else
    match s.connectionState with
    | conn_2_wifiConnected => pollForClient env s
    | conn_3_clientDelayConnection =>
        if s.clientStopTime + clientConnectDelay > env.now then (s, false, false)
        else pollForClient env { s with ConnTriesAfterStateChange := 0,
                                        connectionState := conn_2_wifiConnected }
    | _ =>
        if env.clientConnected then (s, false, false)
        else ({ s with connectionState := conn_6_stopClientNow }, false, false)

/-- Server `assembleClientRequest()`: read one character if available and
append it unconditionally (`strcat`); on LF go to `conn_5_requestReceived`;
otherwise check the reading timeout. -/
def assembleClientRequest (env : Env) (s : State) : State :=
  if s.connectionState ≠ conn_4_clientConnected then s
  else
    match env.incoming with
    | some c =>
        let s1 := { s with clientRequest := s.clientRequest ++ [c] }
        if c = '\n' then { s1 with connectionState := conn_5_requestReceived }
        else s1
    | none =>
        if s.startReadingAt + readingTimeOut < env.now then
          { s with errors := s.errors + 1,
                   connectionState := conn_6_stopClientNow }
        else s

/-- Server `sendResponseToClient()`: `client.print(clientRequest)`, reset
the request buffer, record a fresh `startReadingAt`, and go back to
`conn_4_clientConnected`. The returned `Option` is the echoed line, if
any. -/
def sendResponseToClient (env : Env) (s : State) : State × Option (List Char) :=
  if s.connectionState ≠ conn_5_requestReceived then (s, none)
  else ({ s with clientRequest := [], startReadingAt := env.now,
                 connectionState := conn_4_clientConnected }, some s.clientRequest)

/-- Server `stopTCPconnection()`: `client.stop()`, record `clientStopTime`
after the stop, go to `conn_7_report`. The returned `Bool` records whether
the stop was performed during this tick. -/
def stopTCPconnection (env : Env) (s : State) : State × Bool :=
  if s.connectionState ≠ conn_6_stopClientNow then (s, false)
  else ({ s with clientStopTime := env.now,
                 connectionState := conn_7_report }, true)

/-- Server `lastConnectionReport()`: print the summary and go to
`conn_3_clientDelayConnection`. (The `reset wifi every 128 client
connections` branch is commented out in the source and hence not
modelled.) -/
def lastConnectionReport (s : State) : State :=
  if s.connectionState ≠ conn_7_report then s
  else { s with connectionState := conn_3_clientDelayConnection }

/-- Server `heartbeat()`. When the heartbeat period has passed it always
resets `ConnTriesAfterStateChange`; it then prints the heartbeat only while
the reporting window `reportingStartTime + reportingTimeout > now` is
open (updating `lastHeartbeat`), and otherwise announces the stop of
reporting exactly while `reportToSerialMonitor` is still set, clearing it.
The returned `Bool`s record: heartbeat printed, suppression announced. -/
def heartbeat (env : Env) (s : State) : State × Bool × Bool :=
  if s.lastHeartbeat + heartbeatPeriod < env.now then
    let s1 := { s with ConnTriesAfterStateChange := 0 }
    if s1.reportingStartTime + reportingTimeout > env.now then
      ({ s1 with lastHeartbeat := env.now }, true, false)
    else if s1.reportToSerialMonitor then
      ({ s1 with reportToSerialMonitor := false }, false, true)
    else (s1, false, false)
  else (s, false, false)

/-- Observable emissions of one pass of the server's `loop()`. -/
structure PassLog where
  wifiAttempt : Bool
  pollAttempt : Bool
  pollDiag : Bool
  sentResponse : Option (List Char)
  stopped : Bool
  heartbeatEmitted : Bool
  suppressionAnnounced : Bool
deriving DecidableEq

/-- One pass of the server's `loop()`: the six state-driven procedures in
source order, then the time-driven `heartbeat()`. -/
def loopPass (env : Env) (s : State) : State × PassLog :=
  let w := connectToWiFi env s
  let t := connectToClient env w.1
  let a := assembleClientRequest env t.1
  let q := sendResponseToClient env a
  let p := stopTCPconnection env q.1
  let r := lastConnectionReport p.1
  let h := heartbeat env r
  (h.1, { wifiAttempt := w.2, pollAttempt := t.2.1, pollDiag := t.2.2,
          sentResponse := q.2, stopped := p.2,
          heartbeatEmitted := h.2.1, suppressionAnnounced := h.2.2 })

/-- Repeated invocation of `loop()`, one `Env` per pass. -/
def run (envs : List Env) (s : State) : State :=
  match envs with
  | [] => s
  | e :: rest => run rest (loopPass e s).1

/-- Default environment used only to give `List.getD` a fallback. -/
def dfltEnv : Env :=
  { now := 0, wifiStatusConnected := true, wifiBeginOk := false,
    acceptHasClient := false, clientConnected := true, incoming := none }

/-- Environment of pass `i`. -/
def envAt (envs : List Env) (i : Nat) : Env := envs.getD i dfltEnv

/-- Value of `millis()` as observed by pass `i`. -/
def nowAt (envs : List Env) (i : Nat) : Nat := (envAt envs i).now

/-- State at the start of pass `i` of a run from `s0`. -/
def stateAt (s0 : State) (envs : List Env) (i : Nat) : State :=
  run (envs.take i) s0

/-- Emission log of pass `i` of a run from `s0`. -/
def logAt (s0 : State) (envs : List Env) (i : Nat) : PassLog :=
  (loopPass (envAt envs i) (stateAt s0 envs i)).2

/-- The timestamps supplied to the passes never decrease (the clock is
monotonic). -/
def nowMonotone (envs : List Env) : Prop :=
  ∀ i j, i ≤ j → j < envs.length → nowAt envs i ≤ nowAt envs j

end TCPserver

/-! Concrete inputs used by the counterexamples and witnesses below. -/

/-- Two client passes whose `connectToWiFi` both attempt association:
the initial attempt at time 0 fails, the retry happens at time 5000. -/
def c1wEnvs : List TCPclient.Env :=
  [{ now := 0, wifiStatusConnected := false, wifiBeginOk := false,
     serverAcceptsConnect := false, clientConnected := true, incoming := none },
   { now := 5000, wifiStatusConnected := false, wifiBeginOk := false,
     serverAcceptsConnect := false, clientConnected := true, incoming := none }]

/-- A client run in which a transport connect attempt happens before the
transport retry delay has elapsed since the last failed attempt: WiFi up at
time 0, transport connect fails at 4950 (anchoring `clientStopTime`), then
WiFi is lost and re-associates at 5000, which re-enters
`conn_2_wifiConnected` and immediately issues a connect at 5000 < 4950+100. -/
def c1cexEnvs : List TCPclient.Env :=
  [{ now := 0, wifiStatusConnected := false, wifiBeginOk := true,
     serverAcceptsConnect := false, clientConnected := true, incoming := none },
   { now := 4950, wifiStatusConnected := true, wifiBeginOk := false,
     serverAcceptsConnect := false, clientConnected := true, incoming := none },
   { now := 5000, wifiStatusConnected := false, wifiBeginOk := true,
     serverAcceptsConnect := false, clientConnected := true, incoming := none }]

/-- A client run whose first exchange times out: connect and send at time 0,
read timeout at 10001 (teardown and report), reconnect and resend at
10200. -/
def failedCycleEnvs : List TCPclient.Env :=
  [{ now := 0, wifiStatusConnected := false, wifiBeginOk := true,
     serverAcceptsConnect := true, clientConnected := true, incoming := none },
   { now := 10001, wifiStatusConnected := true, wifiBeginOk := false,
     serverAcceptsConnect := false, clientConnected := true, incoming := none },
   { now := 10200, wifiStatusConnected := true, wifiBeginOk := false,
     serverAcceptsConnect := true, clientConnected := true, incoming := none }]

/-- A client run whose first exchange completes (LF received at time 50)
followed by a reconnect and a second send at time 200. -/
def okRunEnvs : List TCPclient.Env :=
  [{ now := 0, wifiStatusConnected := false, wifiBeginOk := true,
     serverAcceptsConnect := true, clientConnected := true, incoming := none },
   { now := 50, wifiStatusConnected := true, wifiBeginOk := false,
     serverAcceptsConnect := false, clientConnected := true,
     incoming := some '\n' },
   { now := 200, wifiStatusConnected := true, wifiBeginOk := false,
     serverAcceptsConnect := true, clientConnected := true, incoming := none }]

/-- A client state waiting for the server response. -/
def clWaitingState : TCPclient.State :=
  { TCPclient.initState with
      connectionState := TCPclient.ConnectionState.conn_5_requestSent }

/-- A quiet client environment at time 0. -/
def clQuietEnv : TCPclient.Env :=
  { now := 0, wifiStatusConnected := true, wifiBeginOk := false,
    serverAcceptsConnect := false, clientConnected := true, incoming := none }

/-- A quiet client environment just past the read timeout. -/
def clTimeoutEnv : TCPclient.Env :=
  { now := 10001, wifiStatusConnected := true, wifiBeginOk := false,
    serverAcceptsConnect := false, clientConnected := true, incoming := none }

/-- A client environment in which `client.connected()` reports false. -/
def clLostEnv : TCPclient.Env :=
  { now := 500, wifiStatusConnected := true, wifiBeginOk := false,
    serverAcceptsConnect := false, clientConnected := false, incoming := none }

/-- A client environment delivering a carriage return. -/
def clCRenv : TCPclient.Env :=
  { now := 1, wifiStatusConnected := true, wifiBeginOk := false,
    serverAcceptsConnect := false, clientConnected := true,
    incoming := some '\r' }

/-- A client environment delivering the character `x`. -/
def clXenv : TCPclient.Env :=
  { now := 1, wifiStatusConnected := true, wifiBeginOk := false,
    serverAcceptsConnect := false, clientConnected := true,
    incoming := some 'x' }

/-- A client environment exactly at `lastHeartbeat + heartbeatPeriod`. -/
def clBoundaryEnv : TCPclient.Env :=
  { now := 1000, wifiStatusConnected := true, wifiBeginOk := false,
    serverAcceptsConnect := false, clientConnected := true, incoming := none }

/-- A server state connected to a client, awaiting the request. -/
def svConnectedState : TCPserver.State :=
  { TCPserver.initState with
      connectionState := TCPserver.ConnectionState.conn_4_clientConnected }

/-- A server environment delivering one request character. -/
def svCharEnv (c : Char) : TCPserver.Env :=
  { now := 1, wifiStatusConnected := true, wifiBeginOk := false,
    acceptHasClient := false, clientConnected := true, incoming := some c }

/-- The request bytes of the round-trip scenario. -/
def c4chars : List Char := ['1', '2', '3', '0', '0', '0', '1', '\r', '\n']

/-- The server state after the nine request bytes have been delivered one
per tick to `assembleClientRequest`. -/
def c4deliver : TCPserver.State :=
  c4chars.foldl (fun s c => TCPserver.assembleClientRequest (svCharEnv c) s)
    svConnectedState

/-- A quiet server environment at time 2. -/
def svQuietEnv : TCPserver.Env :=
  { now := 2, wifiStatusConnected := true, wifiBeginOk := false,
    acceptHasClient := false, clientConnected := true, incoming := none }

/-- A server environment in which the accepted client reports
disconnected. -/
def svLostEnv : TCPserver.Env :=
  { now := 500, wifiStatusConnected := true, wifiBeginOk := false,
    acceptHasClient := false, clientConnected := false, incoming := none }

/-- A quiet server environment just past the read timeout. -/
def svTimeoutEnv : TCPserver.Env :=
  { now := 10001, wifiStatusConnected := true, wifiBeginOk := false,
    acceptHasClient := false, clientConnected := true, incoming := none }

/-- A server state polling for a client with the per-poll diagnostic
already suppressed (21 consecutive failed polls). -/
def svSuppressedState : TCPserver.State :=
  { TCPserver.initState with
      connectionState := TCPserver.ConnectionState.conn_2_wifiConnected,
      ConnTriesAfterStateChange := 21 }

/-- A quiet server environment at time 1500 (heartbeat due, reporting
window still open). -/
def svHbEnv : TCPserver.Env :=
  { now := 1500, wifiStatusConnected := true, wifiBeginOk := false,
    acceptHasClient := false, clientConnected := true, incoming := none }

-- ===== Helper lemmas and claim theorems =====

namespace TCPclient

theorem cl_wifi_noAttempt (e : Env) (s : State)
    (h : (connectToWiFi e s).2 = false) : (connectToWiFi e s).1 = s := by
  revert h
  cases hc : s.connectionState <;> simp only [connectToWiFi, hc] <;>
    (try split_ifs) <;> simp

theorem cl_wifi_attemptTime (e : Env) (s : State)
    (h : (connectToWiFi e s).2 = true) :
    (connectToWiFi e s).1.wifiConnectTime = e.now := by
  revert h
  cases hc : s.connectionState <;> simp only [connectToWiFi, attemptWifi, hc] <;>
    (try split_ifs) <;> simp

theorem cl_wifi_due (e : Env) (s : State)
    (h0 : s.connectionState ≠ ConnectionState.conn_0_wifiConnectNow)
    (h : (connectToWiFi e s).2 = true) :
    s.wifiConnectTime + wifiConnectDelay ≤ e.now := by
  revert h
  cases hc : s.connectionState <;> rw [hc] at h0 <;>
    simp only [connectToWiFi, hc] <;> (try split_ifs) <;> simp_all

theorem cl_wifi_ne0 (e : Env) (s : State) :
    (connectToWiFi e s).1.connectionState ≠
      ConnectionState.conn_0_wifiConnectNow := by
  cases hc : s.connectionState <;> simp only [connectToWiFi, attemptWifi, hc] <;>
    (try split_ifs) <;> simp [hc]

theorem cl_wifi_messageCounter (e : Env) (s : State) :
    (connectToWiFi e s).1.messageCounter = s.messageCounter := by
  cases hc : s.connectionState <;> simp only [connectToWiFi, attemptWifi, hc] <;>
    (try split_ifs) <;> rfl

theorem cl_wifi_clientStopTime (e : Env) (s : State) :
    (connectToWiFi e s).1.clientStopTime = s.clientStopTime := by
  cases hc : s.connectionState <;> simp only [connectToWiFi, attemptWifi, hc] <;>
    (try split_ifs) <;> rfl

theorem cl_server_wifiTime (e : Env) (s : State) :
    (connectToServer e s).1.wifiConnectTime = s.wifiConnectTime := by
  cases hc : s.connectionState <;>
    simp only [connectToServer, attemptServerConnect, ConnectionState.toNat, hc] <;>
    (try split_ifs) <;> rfl

theorem cl_server_messageCounter (e : Env) (s : State) :
    (connectToServer e s).1.messageCounter = s.messageCounter := by
  cases hc : s.connectionState <;>
    simp only [connectToServer, attemptServerConnect, ConnectionState.toNat, hc] <;>
    (try split_ifs) <;> rfl

theorem cl_server_ne2 (e : Env) (s : State) :
    (connectToServer e s).1.connectionState ≠
      ConnectionState.conn_2_wifiConnected := by
  cases hc : s.connectionState <;>
    simp only [connectToServer, attemptServerConnect, ConnectionState.toNat, hc] <;>
    (try split_ifs) <;> simp_all [hc]

theorem cl_server_state (e : Env) (s : State) :
    (connectToServer e s).1.connectionState = s.connectionState ∨
    (connectToServer e s).1.connectionState = ConnectionState.conn_4_clientConnected ∨
    (connectToServer e s).1.connectionState = ConnectionState.conn_3_clientDelayConnection ∨
    (connectToServer e s).1.connectionState = ConnectionState.conn_6_stopClientNow := by
  cases hc : s.connectionState <;>
    simp only [connectToServer, attemptServerConnect, ConnectionState.toNat, hc] <;>
    (try split_ifs) <;> simp [hc]

theorem cl_server_due (e : Env) (s : State)
    (h0 : s.connectionState ≠ ConnectionState.conn_2_wifiConnected)
    (h : (connectToServer e s).2 = true) :
    s.clientStopTime + clientConnectDelay ≤ e.now := by
  revert h
  cases hc : s.connectionState <;> rw [hc] at h0 <;>
    simp only [connectToServer, attemptServerConnect, ConnectionState.toNat, hc] <;>
    (try split_ifs) <;> simp_all

theorem cl_server_stopTime (e : Env) (s : State) :
    (connectToServer e s).1.clientStopTime = s.clientStopTime ∨
      (connectToServer e s).1.clientStopTime = e.now := by
  cases hc : s.connectionState <;>
    simp only [connectToServer, attemptServerConnect, ConnectionState.toNat, hc] <;>
    (try split_ifs) <;> simp

theorem cl_send_frame (e : Env) (s : State) :
    (sendRequestToServer e s).1.wifiConnectTime = s.wifiConnectTime ∧
    (sendRequestToServer e s).1.clientStopTime = s.clientStopTime ∧
    (sendRequestToServer e s).1.messageCounter = s.messageCounter := by
  unfold sendRequestToServer
  split_ifs <;> simp

theorem cl_send_state (e : Env) (s : State) :
    (sendRequestToServer e s).1.connectionState = s.connectionState ∨
    (sendRequestToServer e s).1.connectionState = ConnectionState.conn_5_requestSent := by
  unfold sendRequestToServer
  split_ifs <;> simp

theorem cl_send_val (e : Env) (s : State) (v : Nat)
    (h : (sendRequestToServer e s).2 = some v) : v = s.messageCounter := by
  revert h
  unfold sendRequestToServer
  split_ifs <;> simp
  exact fun h => h.symm

theorem cl_assemble_frame (e : Env) (s : State) :
    (assembleServerResponse e s).1.wifiConnectTime = s.wifiConnectTime ∧
    (assembleServerResponse e s).1.clientStopTime = s.clientStopTime := by
  unfold assembleServerResponse
  cases hi : e.incoming <;> simp only [hi] <;> split_ifs <;> simp

theorem cl_assemble_state (e : Env) (s : State) :
    (assembleServerResponse e s).1.connectionState = s.connectionState ∨
    (assembleServerResponse e s).1.connectionState =
      ConnectionState.conn_6_stopClientNow := by
  unfold assembleServerResponse
  cases hi : e.incoming <;> simp only [hi] <;> split_ifs <;> simp

theorem cl_assemble_counter_nolf (e : Env) (s : State)
    (h : (assembleServerResponse e s).2 = false) :
    (assembleServerResponse e s).1.messageCounter = s.messageCounter := by
  revert h
  unfold assembleServerResponse
  cases hi : e.incoming <;> simp only [hi] <;> (try split_ifs) <;> simp

theorem cl_assemble_counter_lf (e : Env) (s : State)
    (h : (assembleServerResponse e s).2 = true) :
    (assembleServerResponse e s).1.messageCounter = s.messageCounter + 1 := by
  revert h
  unfold assembleServerResponse
  cases hi : e.incoming <;> simp only [hi] <;> (try split_ifs) <;> simp

theorem cl_gotLF_iff (e : Env) (s : State) :
    (assembleServerResponse e s).2 = true ↔
      (s.connectionState = ConnectionState.conn_5_requestSent ∧
        e.incoming = some '\n') := by
  unfold assembleServerResponse
  cases hi : e.incoming <;> simp only [hi] <;> (try split_ifs) <;> simp_all

theorem cl_stop_frame (e : Env) (s : State) :
    (stopTCPconnection e s).1.wifiConnectTime = s.wifiConnectTime ∧
    (stopTCPconnection e s).1.messageCounter = s.messageCounter := by
  unfold stopTCPconnection
  split_ifs <;> simp

theorem cl_stop_state (e : Env) (s : State) :
    (stopTCPconnection e s).1.connectionState = s.connectionState ∨
    (stopTCPconnection e s).1.connectionState = ConnectionState.conn_7_report := by
  unfold stopTCPconnection
  split_ifs <;> simp

theorem cl_stop_stopTime (e : Env) (s : State) :
    (stopTCPconnection e s).1.clientStopTime = s.clientStopTime ∨
      (stopTCPconnection e s).1.clientStopTime = e.now := by
  unfold stopTCPconnection
  split_ifs <;> simp

theorem cl_report_frame (s : State) :
    (lastConnectionReport s).wifiConnectTime = s.wifiConnectTime ∧
    (lastConnectionReport s).clientStopTime = s.clientStopTime ∧
    (lastConnectionReport s).messageCounter = s.messageCounter := by
  unfold lastConnectionReport
  split_ifs <;> simp

theorem cl_report_state (s : State) :
    (lastConnectionReport s).connectionState = s.connectionState ∨
    (lastConnectionReport s).connectionState =
      ConnectionState.conn_3_clientDelayConnection := by
  unfold lastConnectionReport
  split_ifs <;> simp

theorem cl_hb_frame (e : Env) (s : State) :
    (heartbeat e s).1.wifiConnectTime = s.wifiConnectTime ∧
    (heartbeat e s).1.clientStopTime = s.clientStopTime ∧
    (heartbeat e s).1.messageCounter = s.messageCounter ∧
    (heartbeat e s).1.connectionState = s.connectionState := by
  unfold heartbeat
  split_ifs <;> simp

end TCPclient

namespace TCPclient

theorem cl_pass_state (e : Env) (s : State) :
    (loopPass e s).1 =
      (heartbeat e (lastConnectionReport
        ((stopTCPconnection e
          ((assembleServerResponse e
            ((sendRequestToServer e
              ((connectToServer e ((connectToWiFi e s).1)).1)).1)).1)).1))).1 := rfl

theorem cl_log_wifiAttempt (e : Env) (s : State) :
    (loopPass e s).2.wifiAttempt = (connectToWiFi e s).2 := rfl

theorem cl_log_connectAttempt (e : Env) (s : State) :
    (loopPass e s).2.connectAttempt =
      (connectToServer e ((connectToWiFi e s).1)).2 := rfl

theorem cl_log_sentRequest (e : Env) (s : State) :
    (loopPass e s).2.sentRequest =
      (sendRequestToServer e ((connectToServer e ((connectToWiFi e s).1)).1)).2 := rfl

theorem cl_log_gotLF (e : Env) (s : State) :
    (loopPass e s).2.gotLF =
      (assembleServerResponse e
        ((sendRequestToServer e
          ((connectToServer e ((connectToWiFi e s).1)).1)).1)).2 := rfl

theorem cl_pass_wifiTime_or (e : Env) (s : State) :
    (loopPass e s).1.wifiConnectTime = s.wifiConnectTime ∨
      (loopPass e s).1.wifiConnectTime = e.now := by
  rw [cl_pass_state, (cl_hb_frame e _).1, (cl_report_frame _).1,
    (cl_stop_frame e _).1, (cl_assemble_frame e _).1, (cl_send_frame e _).1,
    cl_server_wifiTime]
  cases hA : (connectToWiFi e s).2
  · rw [cl_wifi_noAttempt e s hA]; exact Or.inl rfl
  · exact Or.inr (cl_wifi_attemptTime e s hA)

theorem cl_pass_attempt_time (e : Env) (s : State)
    (h : (loopPass e s).2.wifiAttempt = true) :
    (loopPass e s).1.wifiConnectTime = e.now := by
  rw [cl_log_wifiAttempt] at h
  rw [cl_pass_state, (cl_hb_frame e _).1, (cl_report_frame _).1,
    (cl_stop_frame e _).1, (cl_assemble_frame e _).1, (cl_send_frame e _).1,
    cl_server_wifiTime]
  exact cl_wifi_attemptTime e s h

theorem cl_pass_attempt_due (e : Env) (s : State)
    (h0 : s.connectionState ≠ ConnectionState.conn_0_wifiConnectNow)
    (h : (loopPass e s).2.wifiAttempt = true) :
    s.wifiConnectTime + wifiConnectDelay ≤ e.now := by
  rw [cl_log_wifiAttempt] at h
  exact cl_wifi_due e s h0 h

theorem cl_pass_ne0 (e : Env) (s : State) :
    (loopPass e s).1.connectionState ≠
      ConnectionState.conn_0_wifiConnectNow := by
  rw [cl_pass_state, (cl_hb_frame e _).2.2.2]
  have h1 := cl_wifi_ne0 e s
  have h2 : (connectToServer e ((connectToWiFi e s).1)).1.connectionState ≠
      ConnectionState.conn_0_wifiConnectNow := by
    rcases cl_server_state e ((connectToWiFi e s).1) with h | h | h | h <;>
      rw [h] <;> simp_all
  have h3 : (sendRequestToServer e
      ((connectToServer e ((connectToWiFi e s).1)).1)).1.connectionState ≠
      ConnectionState.conn_0_wifiConnectNow := by
    rcases cl_send_state e _ with h | h <;> rw [h] <;> simp_all
  have h4 : (assembleServerResponse e ((sendRequestToServer e
      ((connectToServer e ((connectToWiFi e s).1)).1)).1)).1.connectionState ≠
      ConnectionState.conn_0_wifiConnectNow := by
    rcases cl_assemble_state e _ with h | h <;> rw [h] <;> simp_all
  have h5 : (stopTCPconnection e ((assembleServerResponse e ((sendRequestToServer e
      ((connectToServer e ((connectToWiFi e s).1)).1)).1)).1)).1.connectionState ≠
      ConnectionState.conn_0_wifiConnectNow := by
    rcases cl_stop_state e _ with h | h <;> rw [h] <;> simp_all
  rcases cl_report_state ((stopTCPconnection e ((assembleServerResponse e
      ((sendRequestToServer e
        ((connectToServer e ((connectToWiFi e s).1)).1)).1)).1)).1) with h | h <;>
    rw [h] <;> simp_all

theorem cl_pass_ne2 (e : Env) (s : State) :
    (loopPass e s).1.connectionState ≠
      ConnectionState.conn_2_wifiConnected := by
  rw [cl_pass_state, (cl_hb_frame e _).2.2.2]
  have h2 := cl_server_ne2 e ((connectToWiFi e s).1)
  have h3 : (sendRequestToServer e
      ((connectToServer e ((connectToWiFi e s).1)).1)).1.connectionState ≠
      ConnectionState.conn_2_wifiConnected := by
    rcases cl_send_state e _ with h | h <;> rw [h] <;> simp_all
  have h4 : (assembleServerResponse e ((sendRequestToServer e
      ((connectToServer e ((connectToWiFi e s).1)).1)).1)).1.connectionState ≠
      ConnectionState.conn_2_wifiConnected := by
    rcases cl_assemble_state e _ with h | h <;> rw [h] <;> simp_all
  have h5 : (stopTCPconnection e ((assembleServerResponse e ((sendRequestToServer e
      ((connectToServer e ((connectToWiFi e s).1)).1)).1)).1)).1.connectionState ≠
      ConnectionState.conn_2_wifiConnected := by
    rcases cl_stop_state e _ with h | h <;> rw [h] <;> simp_all
  rcases cl_report_state ((stopTCPconnection e ((assembleServerResponse e
      ((sendRequestToServer e
        ((connectToServer e ((connectToWiFi e s).1)).1)).1)).1)).1) with h | h <;>
    rw [h] <;> simp_all

theorem cl_pass_counter (e : Env) (s : State) :
    (loopPass e s).1.messageCounter =
      s.messageCounter + (if (loopPass e s).2.gotLF then 1 else 0) := by
  rw [cl_pass_state, cl_log_gotLF]
  have h1 : (sendRequestToServer e
      ((connectToServer e ((connectToWiFi e s).1)).1)).1.messageCounter =
      s.messageCounter := by
    rw [(cl_send_frame e _).2.2, cl_server_messageCounter, cl_wifi_messageCounter]
  cases hLF : (assembleServerResponse e ((sendRequestToServer e
      ((connectToServer e ((connectToWiFi e s).1)).1)).1)).2
  · rw [(cl_hb_frame e _).2.2.1, (cl_report_frame _).2.2, (cl_stop_frame e _).2,
     cl_assemble_counter_nolf e _ hLF, h1]
    simp
  · rw [(cl_hb_frame e _).2.2.1, (cl_report_frame _).2.2, (cl_stop_frame e _).2,
     cl_assemble_counter_lf e _ hLF, h1]
    simp

theorem cl_pass_sent_val (e : Env) (s : State) (v : Nat)
    (h : (loopPass e s).2.sentRequest = some v) : v = s.messageCounter := by
  rw [cl_log_sentRequest] at h
  have := cl_send_val e ((connectToServer e ((connectToWiFi e s).1)).1) v h
  rw [this, cl_server_messageCounter, cl_wifi_messageCounter]

theorem cl_pass_stopTime_or (e : Env) (s : State) :
    (loopPass e s).1.clientStopTime = s.clientStopTime ∨
      (loopPass e s).1.clientStopTime = e.now := by
  rw [cl_pass_state, (cl_hb_frame e _).2.1, (cl_report_frame _).2.1]
  rcases cl_stop_stopTime e ((assembleServerResponse e ((sendRequestToServer e
      ((connectToServer e ((connectToWiFi e s).1)).1)).1)).1) with h | h <;> rw [h]
  · rw [(cl_assemble_frame e _).2, (cl_send_frame e _).2.1]
    rcases cl_server_stopTime e ((connectToWiFi e s).1) with h2 | h2 <;> rw [h2]
    · rw [cl_wifi_clientStopTime]
      exact Or.inl rfl
    · exact Or.inr rfl
  · exact Or.inr rfl

theorem cl_pass_transport_due (e : Env) (s : State)
    (h0 : s.connectionState ≠ ConnectionState.conn_2_wifiConnected)
    (hc : (loopPass e s).2.connectAttempt = true)
    (hw : (loopPass e s).2.wifiAttempt = false) :
    s.clientStopTime + clientConnectDelay ≤ e.now := by
  rw [cl_log_connectAttempt] at hc
  rw [cl_log_wifiAttempt] at hw
  rw [cl_wifi_noAttempt e s hw] at hc
  exact cl_server_due e s h0 hc

end TCPclient

namespace TCPclient

theorem cl_stateAt_succ (envs : List Env) (s0 : State) (i : Nat)
    (h : i < envs.length) :
    stateAt s0 envs (i+1) = (loopPass (envAt envs i) (stateAt s0 envs i)).1 := by
  induction envs generalizing s0 i with
  | nil => simp at h
  | cons e rest ih =>
      cases i with
      | zero => rfl
      | succ k =>
          have hk : k < rest.length := by simpa using h
          exact ih (loopPass e s0).1 k hk

theorem cl_run_counter (envs : List Env) (s : State) :
    (run envs s).messageCounter = s.messageCounter + countLF s envs := by
  induction envs generalizing s with
  | nil => simp [run, countLF]
  | cons e rest ih =>
      show (run rest (loopPass e s).1).messageCounter = _
      rw [ih, cl_pass_counter]
      simp [countLF]
      omega

theorem cl_countLF_succ (envs : List Env) (s0 : State) (k : Nat)
    (h : k < envs.length) :
    countLF s0 (envs.take (k+1)) =
      countLF s0 (envs.take k) +
        (if (logAt s0 envs k).gotLF then 1 else 0) := by
  induction envs generalizing s0 k with
  | nil => simp at h
  | cons e rest ih =>
      cases k with
      | zero =>
          show (if (loopPass e s0).2.gotLF then 1 else 0) + countLF _ [] = _
          simp [countLF, logAt, stateAt, envAt, run]
      | succ m =>
          have hm : m < rest.length := by simpa using h
          show (if (loopPass e s0).2.gotLF then 1 else 0) +
              countLF (loopPass e s0).1 (rest.take (m+1)) = _
          rw [ih (loopPass e s0).1 m hm]
          have hlog : logAt s0 (e :: rest) (m+1) = logAt (loopPass e s0).1 rest m := rfl
          have hr : countLF s0 ((e :: rest).take (m+1)) =
              (if (loopPass e s0).2.gotLF then 1 else 0) +
                countLF (loopPass e s0).1 (rest.take m) := rfl
          rw [hlog, hr]
          omega

theorem cl_countLF_take_mono (envs : List Env) (s0 : State) (i j : Nat)
    (hij : i ≤ j) (hj : j ≤ envs.length) :
    countLF s0 (envs.take i) ≤ countLF s0 (envs.take j) := by
  induction j with
  | zero =>
      have : i = 0 := by omega
      subst this
      exact Nat.le_refl _
  | succ m ihm =>
      rcases Nat.lt_or_ge i (m+1) with him | him
      · have h1 := ihm (by omega) (by omega)
        rw [cl_countLF_succ envs s0 m (by omega)]
        omega
      · have : i = m + 1 := by omega
        subst this
        exact Nat.le_refl _

theorem cl_counter_at (envs : List Env) (s0 : State) (j : Nat) :
    (stateAt s0 envs j).messageCounter =
      s0.messageCounter + countLF s0 (envs.take j) :=
  cl_run_counter (envs.take j) s0

theorem cl_sent_at_val (envs : List Env) (s0 : State) (j : Nat) (v : Nat)
    (h : (logAt s0 envs j).sentRequest = some v) :
    v = s0.messageCounter + countLF s0 (envs.take j) := by
  have := cl_pass_sent_val (envAt envs j) (stateAt s0 envs j) v h
  rw [this, cl_counter_at]

theorem cl_run_ne0 (envs : List Env) (s : State) (h : envs ≠ []) :
    (run envs s).connectionState ≠
      ConnectionState.conn_0_wifiConnectNow := by
  induction envs generalizing s with
  | nil => exact absurd rfl h
  | cons e rest ih =>
      cases rest with
      | nil => exact cl_pass_ne0 e s
      | cons f rest2 =>
          exact ih (loopPass e s).1 (by simp)

theorem cl_run_ne2 (envs : List Env) (s : State) (h : envs ≠ []) :
    (run envs s).connectionState ≠
      ConnectionState.conn_2_wifiConnected := by
  induction envs generalizing s with
  | nil => exact absurd rfl h
  | cons e rest ih =>
      cases rest with
      | nil => exact cl_pass_ne2 e s
      | cons f rest2 =>
          exact ih (loopPass e s).1 (by simp)

theorem cl_wifiTime_after (envs : List Env) (s0 : State)
    (hm : nowMonotone envs) (i : Nat) (hi : i < envs.length)
    (hAtt : (logAt s0 envs i).wifiAttempt = true) :
    ∀ j, i < j → j ≤ envs.length →
      nowAt envs i ≤ (stateAt s0 envs j).wifiConnectTime := by
  intro j
  induction j with
  | zero => omega
  | succ m ih =>
      intro hij hjlen
      rcases Nat.lt_or_ge i m with him | him
      · have hmlen : m < envs.length := by omega
        rw [cl_stateAt_succ envs s0 m hmlen]
        rcases cl_pass_wifiTime_or (envAt envs m) (stateAt s0 envs m) with hs | hn
        · rw [hs]; exact ih him (by omega)
        · rw [hn]; exact hm i m (by omega) hmlen
      · have hmi : m = i := by omega
        subst hmi
        rw [cl_stateAt_succ envs s0 m (by omega)]
        rw [cl_pass_attempt_time (envAt envs m) (stateAt s0 envs m) hAtt]
        exact Nat.le_refl _

theorem cl_takeNeNil (envs : List Env) (j : Nat) (h0 : 0 < j)
    (hj : j ≤ envs.length) : envs.take j ≠ [] := by
  intro hnil
  have hlen : (envs.take j).length = min j envs.length := List.length_take j envs
  rw [hnil] at hlen
  simp at hlen
  omega

end TCPclient

namespace TCPserver

theorem sv_wifi_noAttempt (e : Env) (s : State)
    (h : (connectToWiFi e s).2 = false) : (connectToWiFi e s).1 = s := by
  revert h
  cases hc : s.connectionState <;> simp only [connectToWiFi, hc] <;>
    (try split_ifs) <;> simp

theorem sv_wifi_attemptTime (e : Env) (s : State)
    (h : (connectToWiFi e s).2 = true) :
    (connectToWiFi e s).1.wifiConnectTime = e.now := by
  revert h
  cases hc : s.connectionState <;> simp only [connectToWiFi, attemptWifi, hc] <;>
    (try split_ifs) <;> simp

theorem sv_wifi_due (e : Env) (s : State)
    (h0 : s.connectionState ≠ ConnectionState.conn_0_wifiConnectNow)
    (h : (connectToWiFi e s).2 = true) :
    s.wifiConnectTime + wifiConnectDelay ≤ e.now := by
  revert h
  cases hc : s.connectionState <;> rw [hc] at h0 <;>
    simp only [connectToWiFi, hc] <;> (try split_ifs) <;> simp_all

theorem sv_wifi_ne0 (e : Env) (s : State) :
    (connectToWiFi e s).1.connectionState ≠
      ConnectionState.conn_0_wifiConnectNow := by
  cases hc : s.connectionState <;> simp only [connectToWiFi, attemptWifi, hc] <;>
    (try split_ifs) <;> simp [hc]

theorem sv_wifi_stopTime (e : Env) (s : State) :
    (connectToWiFi e s).1.clientStopTime = s.clientStopTime := by
  cases hc : s.connectionState <;> simp only [connectToWiFi, attemptWifi, hc] <;>
    (try split_ifs) <;> rfl

theorem sv_wifi_errors (e : Env) (s : State) :
    (connectToWiFi e s).1.errors = s.errors := by
  cases hc : s.connectionState <;> simp only [connectToWiFi, attemptWifi, hc] <;>
    (try split_ifs) <;> rfl

theorem sv_wifi_tries_ok (e : Env) (s : State)
    (h : (connectToWiFi e s).2 = true) (hok : e.wifiBeginOk = true) :
    (connectToWiFi e s).1.ConnTriesAfterStateChange = 0 := by
  revert h
  cases hc : s.connectionState <;> simp only [connectToWiFi, attemptWifi, hc] <;>
    (try split_ifs) <;> simp_all

theorem sv_wifi_tries_fail (e : Env) (s : State)
    (h : (connectToWiFi e s).2 = true) (hok : e.wifiBeginOk = false) :
    (connectToWiFi e s).1.ConnTriesAfterStateChange =
      s.ConnTriesAfterStateChange := by
  revert h
  cases hc : s.connectionState <;> simp only [connectToWiFi, attemptWifi, hc] <;>
    (try split_ifs) <;> simp_all

theorem sv_conn_noop (e : Env) (s : State)
    (h : s.connectionState.toNat < 2) : (connectToClient e s).1 = s := by
  cases hc : s.connectionState <;>
    (try (rw [hc] at h; simp [ConnectionState.toNat] at h)) <;>
    simp [connectToClient, ConnectionState.toNat, hc]

theorem sv_conn_stopTime (e : Env) (s : State) :
    (connectToClient e s).1.clientStopTime = s.clientStopTime := by
  cases hc : s.connectionState <;>
    simp only [connectToClient, pollForClient, ConnectionState.toNat, hc] <;>
    (try split_ifs) <;> rfl

theorem sv_conn_errors (e : Env) (s : State) :
    (connectToClient e s).1.errors = s.errors := by
  cases hc : s.connectionState <;>
    simp only [connectToClient, pollForClient, ConnectionState.toNat, hc] <;>
    (try split_ifs) <;> rfl

theorem sv_conn_wifiTime (e : Env) (s : State) :
    (connectToClient e s).1.wifiConnectTime = s.wifiConnectTime := by
  cases hc : s.connectionState <;>
    simp only [connectToClient, pollForClient, ConnectionState.toNat, hc] <;>
    (try split_ifs) <;> rfl

theorem sv_conn_fault (e : Env) (s : State)
    (h : 4 ≤ s.connectionState.toNat) (hcn : e.clientConnected = false) :
    (connectToClient e s).1 =
      { s with connectionState := ConnectionState.conn_6_stopClientNow } ∧
      (connectToClient e s).2.1 = false := by
  cases hc : s.connectionState <;>
    (try (rw [hc] at h; simp [ConnectionState.toNat] at h)) <;>
    simp only [connectToClient, ConnectionState.toNat, hc] <;>
    simp [hcn]

theorem sv_conn_poll_due (e : Env) (s : State)
    (hInv : s.connectionState = ConnectionState.conn_2_wifiConnected →
      s.clientStopTime + clientConnectDelay ≤ e.now)
    (h : (connectToClient e s).2.1 = true) :
    s.clientStopTime + clientConnectDelay ≤ e.now := by
  revert h
  cases hc : s.connectionState <;> rw [hc] at hInv <;>
    simp only [connectToClient, pollForClient, ConnectionState.toNat, hc] <;>
    (try split_ifs) <;> simp_all

theorem sv_conn_post2 (e : Env) (s : State)
    (h : (connectToClient e s).1.connectionState =
      ConnectionState.conn_2_wifiConnected) :
    s.connectionState = ConnectionState.conn_2_wifiConnected ∨
      (s.connectionState = ConnectionState.conn_3_clientDelayConnection ∧
        s.clientStopTime + clientConnectDelay ≤ e.now) := by
  revert h
  cases hc : s.connectionState <;>
    simp only [connectToClient, pollForClient, ConnectionState.toNat, hc] <;>
    (try split_ifs) <;> simp_all

theorem sv_conn_diag_iff (e : Env) (s : State) :
    (connectToClient e s).2.2 = true ↔
      ((s.connectionState = ConnectionState.conn_2_wifiConnected ∧
          s.ConnTriesAfterStateChange ≤ 20 ∧ s.reportToSerialMonitor = true) ∨
        (s.connectionState = ConnectionState.conn_3_clientDelayConnection ∧
          s.clientStopTime + clientConnectDelay ≤ e.now ∧
          s.reportToSerialMonitor = true)) := by
  cases hc : s.connectionState <;>
    simp only [connectToClient, pollForClient, ConnectionState.toNat, hc] <;>
    (try split_ifs) <;> simp_all

theorem sv_conn_tries_poll2 (e : Env) (s : State)
    (hc : s.connectionState = ConnectionState.conn_2_wifiConnected) :
    (connectToClient e s).1.ConnTriesAfterStateChange =
      s.ConnTriesAfterStateChange + 1 := by
  simp only [connectToClient, pollForClient, ConnectionState.toNat, hc]
  split_ifs <;> simp_all

theorem sv_conn_tries_retry (e : Env) (s : State)
    (hc : s.connectionState = ConnectionState.conn_3_clientDelayConnection)
    (hdue : s.clientStopTime + clientConnectDelay ≤ e.now) :
    (connectToClient e s).1.ConnTriesAfterStateChange = 1 := by
  simp only [connectToClient, pollForClient, ConnectionState.toNat, hc]
  split_ifs <;> simp_all <;> omega

theorem sv_conn_tries_frame (e : Env) (s : State)
    (h2 : s.connectionState ≠ ConnectionState.conn_2_wifiConnected)
    (h3 : s.connectionState ≠ ConnectionState.conn_3_clientDelayConnection) :
    (connectToClient e s).1.ConnTriesAfterStateChange =
      s.ConnTriesAfterStateChange := by
  cases hc : s.connectionState <;> rw [hc] at h2 h3 <;>
    simp only [connectToClient, pollForClient, ConnectionState.toNat, hc] <;>
    (try split_ifs) <;> simp_all

theorem sv_asm_noop (e : Env) (s : State)
    (h : s.connectionState ≠ ConnectionState.conn_4_clientConnected) :
    assembleClientRequest e s = s := by
  simp [assembleClientRequest, h]

theorem sv_asm_timeout (e : Env) (s : State)
    (hc : s.connectionState = ConnectionState.conn_4_clientConnected)
    (hi : e.incoming = none)
    (ht : s.startReadingAt + readingTimeOut < e.now) :
    assembleClientRequest e s =
      { s with errors := s.errors + 1,
               connectionState := ConnectionState.conn_6_stopClientNow } := by
  simp [assembleClientRequest, hc, hi, ht]

theorem sv_send_noop (e : Env) (s : State)
    (h : s.connectionState ≠ ConnectionState.conn_5_requestReceived) :
    (sendResponseToClient e s).1 = s := by
  simp [sendResponseToClient, h]

theorem sv_stop_noop (e : Env) (s : State)
    (h : s.connectionState ≠ ConnectionState.conn_6_stopClientNow) :
    (stopTCPconnection e s).1 = s := by
  simp [stopTCPconnection, h]

theorem sv_report_noop (s : State)
    (h : s.connectionState ≠ ConnectionState.conn_7_report) :
    lastConnectionReport s = s := by
  simp [lastConnectionReport, h]

theorem sv_asm_inv2 (e : Env) (s : State)
    (h : (assembleClientRequest e s).connectionState =
      ConnectionState.conn_2_wifiConnected) :
    assembleClientRequest e s = s := by
  revert h
  unfold assembleClientRequest
  cases hi : e.incoming <;> simp only [hi] <;> (try split_ifs) <;> simp_all

theorem sv_send_inv2 (e : Env) (s : State)
    (h : (sendResponseToClient e s).1.connectionState =
      ConnectionState.conn_2_wifiConnected) :
    (sendResponseToClient e s).1 = s := by
  revert h
  unfold sendResponseToClient
  split_ifs <;> simp_all

theorem sv_stop_inv2 (e : Env) (s : State)
    (h : (stopTCPconnection e s).1.connectionState =
      ConnectionState.conn_2_wifiConnected) :
    (stopTCPconnection e s).1 = s := by
  revert h
  unfold stopTCPconnection
  split_ifs <;> simp_all

theorem sv_report_inv2 (s : State)
    (h : (lastConnectionReport s).connectionState =
      ConnectionState.conn_2_wifiConnected) :
    lastConnectionReport s = s := by
  revert h
  unfold lastConnectionReport
  split_ifs <;> simp_all

theorem sv_hb_state_stopTime (e : Env) (s : State) :
    (heartbeat e s).1.connectionState = s.connectionState ∧
    (heartbeat e s).1.clientStopTime = s.clientStopTime ∧
    (heartbeat e s).1.wifiConnectTime = s.wifiConnectTime ∧
    (heartbeat e s).1.errors = s.errors := by
  simp only [heartbeat]
  split_ifs <;> simp

theorem sv_hb_notdue (e : Env) (s : State)
    (h : ¬ s.lastHeartbeat + heartbeatPeriod < e.now) :
    heartbeat e s = (s, false, false) := by
  simp [heartbeat, h]

theorem sv_hb_emit_iff (e : Env) (s : State) :
    (heartbeat e s).2.1 = true ↔
      (s.lastHeartbeat + heartbeatPeriod < e.now ∧
        s.reportingStartTime + reportingTimeout > e.now) := by
  simp only [heartbeat]
  split_ifs <;> simp_all

theorem sv_hb_announce_iff (e : Env) (s : State) :
    (heartbeat e s).2.2 = true ↔
      (s.lastHeartbeat + heartbeatPeriod < e.now ∧
        ¬ s.reportingStartTime + reportingTimeout > e.now ∧
        s.reportToSerialMonitor = true) := by
  simp only [heartbeat]
  split_ifs <;> simp_all

theorem sv_hb_flag (e : Env) (s : State)
    (h : (heartbeat e s).1.reportToSerialMonitor = true) :
    s.reportToSerialMonitor = true := by
  revert h
  simp only [heartbeat]
  split_ifs <;> simp_all

theorem sv_hb_announce_clears (e : Env) (s : State)
    (h : (heartbeat e s).2.2 = true) :
    (heartbeat e s).1.reportToSerialMonitor = false := by
  revert h
  simp only [heartbeat]
  split_ifs <;> simp_all

theorem sv_hb_tries_reset (e : Env) (s : State)
    (h : s.lastHeartbeat + heartbeatPeriod < e.now) :
    (heartbeat e s).1.ConnTriesAfterStateChange = 0 := by
  simp only [heartbeat]
  split_ifs <;> simp_all

end TCPserver

namespace TCPserver

theorem sv_asm_frame (e : Env) (s : State) :
    (assembleClientRequest e s).wifiConnectTime = s.wifiConnectTime ∧
    (assembleClientRequest e s).clientStopTime = s.clientStopTime := by
  unfold assembleClientRequest
  cases hi : e.incoming <;> simp only [hi] <;> (try split_ifs) <;> simp

theorem sv_asm_state (e : Env) (s : State) :
    (assembleClientRequest e s).connectionState = s.connectionState ∨
    (assembleClientRequest e s).connectionState =
      ConnectionState.conn_5_requestReceived ∨
    (assembleClientRequest e s).connectionState =
      ConnectionState.conn_6_stopClientNow := by
  unfold assembleClientRequest
  cases hi : e.incoming <;> simp only [hi] <;> (try split_ifs) <;> simp

theorem sv_send_frame (e : Env) (s : State) :
    (sendResponseToClient e s).1.wifiConnectTime = s.wifiConnectTime ∧
    (sendResponseToClient e s).1.clientStopTime = s.clientStopTime := by
  unfold sendResponseToClient
  split_ifs <;> simp

theorem sv_send_state (e : Env) (s : State) :
    (sendResponseToClient e s).1.connectionState = s.connectionState ∨
    (sendResponseToClient e s).1.connectionState =
      ConnectionState.conn_4_clientConnected := by
  unfold sendResponseToClient
  split_ifs <;> simp

theorem sv_stop_frame (e : Env) (s : State) :
    (stopTCPconnection e s).1.wifiConnectTime = s.wifiConnectTime := by
  unfold stopTCPconnection
  split_ifs <;> simp

theorem sv_stop_state (e : Env) (s : State) :
    (stopTCPconnection e s).1.connectionState = s.connectionState ∨
    (stopTCPconnection e s).1.connectionState = ConnectionState.conn_7_report := by
  unfold stopTCPconnection
  split_ifs <;> simp

theorem sv_report_frame (s : State) :
    (lastConnectionReport s).wifiConnectTime = s.wifiConnectTime ∧
    (lastConnectionReport s).clientStopTime = s.clientStopTime := by
  unfold lastConnectionReport
  split_ifs <;> simp

theorem sv_report_state (s : State) :
    (lastConnectionReport s).connectionState = s.connectionState ∨
    (lastConnectionReport s).connectionState =
      ConnectionState.conn_3_clientDelayConnection := by
  unfold lastConnectionReport
  split_ifs <;> simp

theorem sv_conn_state (e : Env) (s : State) :
    (connectToClient e s).1.connectionState = s.connectionState ∨
    (connectToClient e s).1.connectionState =
      ConnectionState.conn_2_wifiConnected ∨
    (connectToClient e s).1.connectionState =
      ConnectionState.conn_4_clientConnected ∨
    (connectToClient e s).1.connectionState =
      ConnectionState.conn_6_stopClientNow := by
  cases hc : s.connectionState <;>
    simp only [connectToClient, pollForClient, ConnectionState.toNat, hc] <;>
    (try split_ifs) <;> simp [hc]

theorem sv_pass_state (e : Env) (s : State) :
    (loopPass e s).1 =
      (heartbeat e (lastConnectionReport
        ((stopTCPconnection e
          ((sendResponseToClient e
            (assembleClientRequest e
              ((connectToClient e ((connectToWiFi e s).1)).1))).1)).1))).1 := rfl

theorem sv_log_wifiAttempt (e : Env) (s : State) :
    (loopPass e s).2.wifiAttempt = (connectToWiFi e s).2 := rfl

theorem sv_log_pollAttempt (e : Env) (s : State) :
    (loopPass e s).2.pollAttempt =
      (connectToClient e ((connectToWiFi e s).1)).2.1 := rfl

theorem sv_log_pollDiag (e : Env) (s : State) :
    (loopPass e s).2.pollDiag =
      (connectToClient e ((connectToWiFi e s).1)).2.2 := rfl

theorem sv_pass_wifiTime_or (e : Env) (s : State) :
    (loopPass e s).1.wifiConnectTime = s.wifiConnectTime ∨
      (loopPass e s).1.wifiConnectTime = e.now := by
  rw [sv_pass_state, (sv_hb_state_stopTime e _).2.2.1, (sv_report_frame _).1,
    sv_stop_frame, (sv_send_frame e _).1, (sv_asm_frame e _).1, sv_conn_wifiTime]
  cases hA : (connectToWiFi e s).2
  · rw [sv_wifi_noAttempt e s hA]; exact Or.inl rfl
  · exact Or.inr (sv_wifi_attemptTime e s hA)

theorem sv_pass_attempt_time (e : Env) (s : State)
    (h : (loopPass e s).2.wifiAttempt = true) :
    (loopPass e s).1.wifiConnectTime = e.now := by
  rw [sv_log_wifiAttempt] at h
  rw [sv_pass_state, (sv_hb_state_stopTime e _).2.2.1, (sv_report_frame _).1,
    sv_stop_frame, (sv_send_frame e _).1, (sv_asm_frame e _).1, sv_conn_wifiTime]
  exact sv_wifi_attemptTime e s h

theorem sv_pass_attempt_due (e : Env) (s : State)
    (h0 : s.connectionState ≠ ConnectionState.conn_0_wifiConnectNow)
    (h : (loopPass e s).2.wifiAttempt = true) :
    s.wifiConnectTime + wifiConnectDelay ≤ e.now := by
  rw [sv_log_wifiAttempt] at h
  exact sv_wifi_due e s h0 h

theorem sv_pass_ne0 (e : Env) (s : State) :
    (loopPass e s).1.connectionState ≠
      ConnectionState.conn_0_wifiConnectNow := by
  rw [sv_pass_state, (sv_hb_state_stopTime e _).1]
  have h1 := sv_wifi_ne0 e s
  have h2 : (connectToClient e ((connectToWiFi e s).1)).1.connectionState ≠
      ConnectionState.conn_0_wifiConnectNow := by
    rcases sv_conn_state e ((connectToWiFi e s).1) with h | h | h | h <;>
      rw [h] <;> simp_all
  have h3 : (assembleClientRequest e
      ((connectToClient e ((connectToWiFi e s).1)).1)).connectionState ≠
      ConnectionState.conn_0_wifiConnectNow := by
    rcases sv_asm_state e _ with h | h | h <;> rw [h] <;> simp_all
  have h4 : (sendResponseToClient e (assembleClientRequest e
      ((connectToClient e ((connectToWiFi e s).1)).1))).1.connectionState ≠
      ConnectionState.conn_0_wifiConnectNow := by
    rcases sv_send_state e _ with h | h <;> rw [h] <;> simp_all
  have h5 : (stopTCPconnection e ((sendResponseToClient e (assembleClientRequest e
      ((connectToClient e ((connectToWiFi e s).1)).1))).1)).1.connectionState ≠
      ConnectionState.conn_0_wifiConnectNow := by
    rcases sv_stop_state e _ with h | h <;> rw [h] <;> simp_all
  rcases sv_report_state ((stopTCPconnection e ((sendResponseToClient e
      (assembleClientRequest e
        ((connectToClient e ((connectToWiFi e s).1)).1))).1)).1) with h | h <;>
    rw [h] <;> simp_all

theorem sv_pass_inv (e : Env) (s : State)
    (hInv : s.connectionState = ConnectionState.conn_2_wifiConnected →
      s.clientStopTime + clientConnectDelay ≤ e.now)
    (hw : (loopPass e s).2.wifiAttempt = false) :
    ((loopPass e s).2.pollAttempt = true →
      s.clientStopTime + clientConnectDelay ≤ e.now) ∧
    ((loopPass e s).1.connectionState = ConnectionState.conn_2_wifiConnected →
      (loopPass e s).1.clientStopTime + clientConnectDelay ≤ e.now) := by
  rw [sv_log_wifiAttempt] at hw
  have hwid := sv_wifi_noAttempt e s hw
  constructor
  · intro hp
    rw [sv_log_pollAttempt, hwid] at hp
    exact sv_conn_poll_due e s hInv hp
  · intro h2
    rw [sv_pass_state, (sv_hb_state_stopTime e _).1] at h2
    rw [sv_pass_state, (sv_hb_state_stopTime e _).2.1]
    -- walk the equality back through report, stop, send, assemble
    rcases sv_report_state ((stopTCPconnection e ((sendResponseToClient e
        (assembleClientRequest e
          ((connectToClient e ((connectToWiFi e s).1)).1))).1)).1) with h | h
    · rw [h] at h2
      rw [(sv_report_frame _).2]
      have h2b := sv_stop_inv2 e _ h2
      rw [h2b] at h2 ⊢
      have h2c := sv_send_inv2 e _ h2
      rw [h2c] at h2 ⊢
      have h2d := sv_asm_inv2 e _ h2
      rw [h2d] at h2 ⊢
      rw [sv_conn_stopTime, hwid]
      rw [hwid] at h2
      rcases sv_conn_post2 e s h2 with hpre | hpre
      · exact hInv hpre
      · exact hpre.2
    · rw [h] at h2
      simp at h2

theorem sv_stateAt_succ (envs : List Env) (s0 : State) (i : Nat)
    (h : i < envs.length) :
    stateAt s0 envs (i+1) = (loopPass (envAt envs i) (stateAt s0 envs i)).1 := by
  induction envs generalizing s0 i with
  | nil => simp at h
  | cons e rest ih =>
      cases i with
      | zero => rfl
      | succ k =>
          have hk : k < rest.length := by simpa using h
          exact ih (loopPass e s0).1 k hk

theorem sv_run_ne0 (envs : List Env) (s : State) (h : envs ≠ []) :
    (run envs s).connectionState ≠
      ConnectionState.conn_0_wifiConnectNow := by
  induction envs generalizing s with
  | nil => exact absurd rfl h
  | cons e rest ih =>
      cases rest with
      | nil => exact sv_pass_ne0 e s
      | cons f rest2 =>
          exact ih (loopPass e s).1 (by simp)

theorem sv_wifiTime_after (envs : List Env) (s0 : State)
    (hm : nowMonotone envs) (i : Nat) (hi : i < envs.length)
    (hAtt : (logAt s0 envs i).wifiAttempt = true) :
    ∀ j, i < j → j ≤ envs.length →
      nowAt envs i ≤ (stateAt s0 envs j).wifiConnectTime := by
  intro j
  induction j with
  | zero => omega
  | succ m ih =>
      intro hij hjlen
      rcases Nat.lt_or_ge i m with him | him
      · have hmlen : m < envs.length := by omega
        rw [sv_stateAt_succ envs s0 m hmlen]
        rcases sv_pass_wifiTime_or (envAt envs m) (stateAt s0 envs m) with hs | hn
        · rw [hs]; exact ih him (by omega)
        · rw [hn]; exact hm i m (by omega) hmlen
      · have hmi : m = i := by omega
        subst hmi
        rw [sv_stateAt_succ envs s0 m (by omega)]
        rw [sv_pass_attempt_time (envAt envs m) (stateAt s0 envs m) hAtt]
        exact Nat.le_refl _

theorem sv_takeNeNil (envs : List Env) (j : Nat) (h0 : 0 < j)
    (hj : j ≤ envs.length) : envs.take j ≠ [] := by
  intro hnil
  have hlen : (envs.take j).length = min j envs.length := List.length_take j envs
  rw [hnil] at hlen
  simp at hlen
  omega

theorem sv_mono_tail (e : Env) (rest : List Env)
    (hm : nowMonotone (e :: rest)) : nowMonotone rest := by
  intro i j hij hjlen
  have := hm (i+1) (j+1) (by omega) (by simpa using Nat.succ_lt_succ hjlen)
  exact this

theorem sv_seg (envs : List Env) (s0 : State) (t0 : Nat)
    (hInv : s0.connectionState = ConnectionState.conn_2_wifiConnected →
      s0.clientStopTime + clientConnectDelay ≤ t0)
    (hts : ∀ i, i < envs.length → t0 ≤ nowAt envs i)
    (hm : nowMonotone envs)
    (hnw : ∀ i, i < envs.length → (logAt s0 envs i).wifiAttempt = false) :
    ∀ j, j < envs.length → (logAt s0 envs j).pollAttempt = true →
      (stateAt s0 envs j).clientStopTime + clientConnectDelay ≤ nowAt envs j := by
  induction envs generalizing s0 t0 with
  | nil => intro j hj; simp at hj
  | cons e rest ih =>
      have hInv0 : s0.connectionState = ConnectionState.conn_2_wifiConnected →
          s0.clientStopTime + clientConnectDelay ≤ e.now := by
        intro h
        exact Nat.le_trans (hInv h) (hts 0 (by simp))
      have hw0 : (loopPass e s0).2.wifiAttempt = false := hnw 0 (by simp)
      have hpi := sv_pass_inv e s0 hInv0 hw0
      intro j hj hp
      cases j with
      | zero => exact hpi.1 hp
      | succ k =>
          have hk : k < rest.length := by simpa using hj
          have hInv' := hpi.2
          have hts' : ∀ i, i < rest.length → e.now ≤ nowAt rest i := by
            intro i hi
            have h0 : nowAt (e :: rest) 0 ≤ nowAt (e :: rest) (i+1) :=
              hm 0 (i+1) (by omega) (by simpa using Nat.succ_lt_succ hi)
            exact h0
          have hm' := sv_mono_tail e rest hm
          have hnw' : ∀ i, i < rest.length →
              (logAt (loopPass e s0).1 rest i).wifiAttempt = false := by
            intro i hi
            exact hnw (i+1) (by simpa using Nat.succ_lt_succ hi)
          exact ih (loopPass e s0).1 e.now hInv' hts' hm' hnw' k hk hp

end TCPserver

/-- Claim C2: for every state S of the coordinator (in particular every
reachable one) and every component tick invoked while S is not that
component's armed state, the tick is a no-op: the full state record —
connection state, all counters and all timestamps — is returned unchanged.
Armed states, as defined by the source's guards: client `sendRequestToServer`
S4, `assembleServerResponse` S5, `stopTCPconnection` S6,
`lastConnectionReport` S7, `connectToServer` / server `connectToClient`
S2 and beyond; server `assembleClientRequest` S4, `sendResponseToClient`
S5, `stopTCPconnection` S6, `lastConnectionReport` S7. The link manager
(`connectToWiFi`) of either role is additionally a no-op in every state at
or beyond S2 while the link is still associated. -/
theorem claim2_tick_noop :
    (∀ (e : TCPclient.Env) (s : TCPclient.State),
      s.connectionState ≠ TCPclient.ConnectionState.conn_4_clientConnected →
      (TCPclient.sendRequestToServer e s).1 = s) ∧
    (∀ (e : TCPclient.Env) (s : TCPclient.State),
      s.connectionState ≠ TCPclient.ConnectionState.conn_5_requestSent →
      (TCPclient.assembleServerResponse e s).1 = s) ∧
    (∀ (e : TCPclient.Env) (s : TCPclient.State),
      s.connectionState ≠ TCPclient.ConnectionState.conn_6_stopClientNow →
      (TCPclient.stopTCPconnection e s).1 = s) ∧
    (∀ s : TCPclient.State,
      s.connectionState ≠ TCPclient.ConnectionState.conn_7_report →
      TCPclient.lastConnectionReport s = s) ∧
    (∀ (e : TCPclient.Env) (s : TCPclient.State),
      s.connectionState.toNat < 2 → (TCPclient.connectToServer e s).1 = s) ∧
    (∀ (e : TCPclient.Env) (s : TCPclient.State),
      2 ≤ s.connectionState.toNat → e.wifiStatusConnected = true →
      (TCPclient.connectToWiFi e s).1 = s) ∧
    (∀ (e : TCPserver.Env) (s : TCPserver.State),
      s.connectionState ≠ TCPserver.ConnectionState.conn_4_clientConnected →
      TCPserver.assembleClientRequest e s = s) ∧
    (∀ (e : TCPserver.Env) (s : TCPserver.State),
      s.connectionState ≠ TCPserver.ConnectionState.conn_5_requestReceived →
      (TCPserver.sendResponseToClient e s).1 = s) ∧
    (∀ (e : TCPserver.Env) (s : TCPserver.State),
      s.connectionState ≠ TCPserver.ConnectionState.conn_6_stopClientNow →
      (TCPserver.stopTCPconnection e s).1 = s) ∧
    (∀ s : TCPserver.State,
      s.connectionState ≠ TCPserver.ConnectionState.conn_7_report →
      TCPserver.lastConnectionReport s = s) ∧
    (∀ (e : TCPserver.Env) (s : TCPserver.State),
      s.connectionState.toNat < 2 → (TCPserver.connectToClient e s).1 = s) ∧
    (∀ (e : TCPserver.Env) (s : TCPserver.State),
      2 ≤ s.connectionState.toNat → e.wifiStatusConnected = true →
      (TCPserver.connectToWiFi e s).1 = s) := by
  refine ⟨?_, ?_, ?_, ?_, ?_, ?_,
    fun e s h => TCPserver.sv_asm_noop e s h,
    fun e s h => TCPserver.sv_send_noop e s h,
    fun e s h => TCPserver.sv_stop_noop e s h,
    fun s h => TCPserver.sv_report_noop s h,
    fun e s h => TCPserver.sv_conn_noop e s h, ?_⟩
  · intro e s h
    simp [TCPclient.sendRequestToServer, h]
  · intro e s h
    simp [TCPclient.assembleServerResponse, h]
  · intro e s h
    simp [TCPclient.stopTCPconnection, h]
  · intro s h
    simp [TCPclient.lastConnectionReport, h]
  · intro e s h
    cases hc : s.connectionState <;>
      (try (rw [hc] at h; simp [TCPclient.ConnectionState.toNat] at h)) <;>
      simp [TCPclient.connectToServer, TCPclient.ConnectionState.toNat, hc]
  · intro e s h hw
    cases hc : s.connectionState <;>
      (try (rw [hc] at h; simp [TCPclient.ConnectionState.toNat] at h)) <;>
      simp [TCPclient.connectToWiFi, hc, hw]
  · intro e s h hw
    cases hc : s.connectionState <;>
      (try (rw [hc] at h; simp [TCPserver.ConnectionState.toNat] at h)) <;>
      simp [TCPserver.connectToWiFi, hc, hw]

/-- Witness for C2: with the client waiting for a response (S5), a tick of
`sendRequestToServer` returns the state unchanged. -/
theorem claim2_tick_noop_witness :
    (TCPclient.sendRequestToServer clQuietEnv clWaitingState).1 =
      clWaitingState :=
  claim2_tick_noop.1 clQuietEnv clWaitingState (by decide)

/-- Claim C3: in the receive-wait state (client S5 `requestSent`, server S4
`clientConnected`), if no byte is available and more than `readingTimeOut`
milliseconds have passed since `startReadingAt`, the tick moves the
coordinator to `conn_6_stopClientNow` (teardown) and increments the error
counter by exactly 1. -/
theorem claim3_read_timeout :
    (∀ (e : TCPclient.Env) (s : TCPclient.State),
      s.connectionState = TCPclient.ConnectionState.conn_5_requestSent →
      e.incoming = none →
      s.startReadingAt + TCPclient.readingTimeOut < e.now →
      (TCPclient.assembleServerResponse e s).1.connectionState =
          TCPclient.ConnectionState.conn_6_stopClientNow ∧
        (TCPclient.assembleServerResponse e s).1.errors = s.errors + 1) ∧
    (∀ (e : TCPserver.Env) (s : TCPserver.State),
      s.connectionState = TCPserver.ConnectionState.conn_4_clientConnected →
      e.incoming = none →
      s.startReadingAt + TCPserver.readingTimeOut < e.now →
      (TCPserver.assembleClientRequest e s).connectionState =
          TCPserver.ConnectionState.conn_6_stopClientNow ∧
        (TCPserver.assembleClientRequest e s).errors = s.errors + 1) := by
  constructor
  · intro e s hc hi ht
    simp [TCPclient.assembleServerResponse, hc, hi, ht]
  · intro e s hc hi ht
    rw [TCPserver.sv_asm_timeout e s hc hi ht]
    exact ⟨rfl, rfl⟩

/-- Witness for C3: a concrete client tick at time 10001 with
`startReadingAt = 0` times out, tearing down with one new error. -/
theorem claim3_read_timeout_witness :
    (TCPclient.assembleServerResponse clTimeoutEnv clWaitingState).1.connectionState =
        TCPclient.ConnectionState.conn_6_stopClientNow ∧
      (TCPclient.assembleServerResponse clTimeoutEnv clWaitingState).1.errors =
        clWaitingState.errors + 1 :=
  claim3_read_timeout.1 clTimeoutEnv clWaitingState (by decide) (by decide)
    (by decide)

/-- Claim C4: delivering the bytes `1230001\x0d\x0a` one per tick to the
server's `assembleClientRequest`, starting from the awaiting-request state
with an empty buffer, leaves the buffer equal to all 9 bytes (terminator
included) just before the echo, and the subsequent `sendResponseToClient`
transmits exactly those 9 bytes and returns to the awaiting-request
state. -/
theorem claim4_server_roundtrip :
    c4deliver.clientRequest = c4chars ∧
    c4chars.length = 9 ∧
    c4deliver.connectionState =
      TCPserver.ConnectionState.conn_5_requestReceived ∧
    (TCPserver.sendResponseToClient svQuietEnv c4deliver).2 = some c4chars ∧
    (TCPserver.sendResponseToClient svQuietEnv c4deliver).1.connectionState =
      TCPserver.ConnectionState.conn_4_clientConnected := by
  refine ⟨?_, ?_, ?_, ?_, ?_⟩ <;> rfl

/-- Claim C6 (corrected): when either role detects in a connected state
(S4-S7) that the transport is no longer connected, it transitions
unconditionally to `conn_6_stopClientNow`; the CLIENT increments the error
counter by 1, but the SERVER leaves its error counter unchanged (the claim's
assertion that the error counter is incremented holds only for the client
role). -/
theorem claim6_peer_disappeared_amended :
    (∀ (e : TCPclient.Env) (s : TCPclient.State),
      4 ≤ s.connectionState.toNat → e.clientConnected = false →
      (TCPclient.connectToServer e s).1.connectionState =
          TCPclient.ConnectionState.conn_6_stopClientNow ∧
        (TCPclient.connectToServer e s).1.errors = s.errors + 1) ∧
    (∀ (e : TCPserver.Env) (s : TCPserver.State),
      4 ≤ s.connectionState.toNat → e.clientConnected = false →
      (TCPserver.connectToClient e s).1.connectionState =
          TCPserver.ConnectionState.conn_6_stopClientNow ∧
        (TCPserver.connectToClient e s).1.errors = s.errors) := by
  constructor
  · intro e s h hcn
    cases hc : s.connectionState <;>
      (try (rw [hc] at h; simp [TCPclient.ConnectionState.toNat] at h)) <;>
      simp [TCPclient.connectToServer, TCPclient.ConnectionState.toNat, hc, hcn]
  · intro e s h hcn
    have hf := TCPserver.sv_conn_fault e s h hcn
    rw [hf.1]
    exact ⟨rfl, rfl⟩

/-- Counterexample for C6 as stated: the server, connected and awaiting a
request with 0 errors, detects the peer gone; it transitions to teardown
but its error counter stays 0, so "the error counter is incremented" is
false for the server role. -/
theorem claim6_peer_disappeared_cex :
    svConnectedState.connectionState =
        TCPserver.ConnectionState.conn_4_clientConnected ∧
      svLostEnv.clientConnected = false ∧
      (TCPserver.connectToClient svLostEnv svConnectedState).1.connectionState =
        TCPserver.ConnectionState.conn_6_stopClientNow ∧
      (TCPserver.connectToClient svLostEnv svConnectedState).1.errors = 0 ∧
      svConnectedState.errors = 0 := by
  refine ⟨rfl, rfl, ?_, ?_, rfl⟩ <;> rfl

/-- Witness for C6 (amended): concrete client and server ticks observing
the lost peer. -/
theorem claim6_peer_disappeared_witness :
    ((TCPclient.connectToServer clLostEnv clWaitingState).1.connectionState =
        TCPclient.ConnectionState.conn_6_stopClientNow ∧
      (TCPclient.connectToServer clLostEnv clWaitingState).1.errors =
        clWaitingState.errors + 1) ∧
    ((TCPserver.connectToClient svLostEnv svConnectedState).1.connectionState =
        TCPserver.ConnectionState.conn_6_stopClientNow ∧
      (TCPserver.connectToClient svLostEnv svConnectedState).1.errors =
        svConnectedState.errors) :=
  ⟨claim6_peer_disappeared_amended.1 clLostEnv clWaitingState (by decide)
      (by decide),
    claim6_peer_disappeared_amended.2 svLostEnv svConnectedState (by decide)
      (by decide)⟩

/-- Claim C7 (corrected): on each tick in `conn_5_requestSent` with a byte
available, the client reads exactly one character; it is appended to the
inbound buffer unless it is CR or LF — the code drops EVERY carriage
return, not only one immediately preceding the terminator — and the line
feed ends accumulation (transition to teardown), any other character
leaving the coordinator awaiting more input. -/
theorem claim7_response_assembly_amended :
    ∀ (e : TCPclient.Env) (s : TCPclient.State) (c : Char),
      s.connectionState = TCPclient.ConnectionState.conn_5_requestSent →
      e.incoming = some c →
      ((TCPclient.assembleServerResponse e s).1.serverResponse =
          if c = '\r' ∨ c = '\n' then s.serverResponse
          else s.serverResponse ++ [c]) ∧
        ((TCPclient.assembleServerResponse e s).1.connectionState =
          if c = '\n' then TCPclient.ConnectionState.conn_6_stopClientNow
          else TCPclient.ConnectionState.conn_5_requestSent) ∧
        ((TCPclient.assembleServerResponse e s).2 = true ↔ c = '\n') := by
  intro e s c hc hi
  simp only [TCPclient.assembleServerResponse, hc, hi]
  split_ifs <;> simp_all

/-- Counterexample for C7 as stated: a carriage return that does NOT
immediately precede the line feed (the next character is `x`) is still
dropped — after the two ticks the buffer holds only `x`, not the CR the
claim says would be appended. -/
theorem claim7_response_assembly_cex :
    clCRenv.incoming = some '\r' ∧
      clXenv.incoming = some 'x' ∧
      (TCPclient.assembleServerResponse clCRenv clWaitingState).1.serverResponse
        = [] ∧
      (TCPclient.assembleServerResponse clXenv
        (TCPclient.assembleServerResponse clCRenv
          clWaitingState).1).1.serverResponse = ['x'] := by
  refine ⟨rfl, rfl, ?_, ?_⟩ <;> rfl

/-- Witness for C7 (amended): a concrete `x` tick appends the byte and
stays in the receive-wait state. -/
theorem claim7_response_assembly_witness :
    ((TCPclient.assembleServerResponse clXenv clWaitingState).1.serverResponse =
        if ('x' = '\r' ∨ 'x' = '\n') then clWaitingState.serverResponse
        else clWaitingState.serverResponse ++ ['x']) ∧
      ((TCPclient.assembleServerResponse clXenv clWaitingState).1.connectionState =
        if 'x' = '\n' then TCPclient.ConnectionState.conn_6_stopClientNow
        else TCPclient.ConnectionState.conn_5_requestSent) ∧
      ((TCPclient.assembleServerResponse clXenv clWaitingState).2 = true ↔
        'x' = '\n') :=
  claim7_response_assembly_amended clXenv clWaitingState 'x' (by decide)
    (by decide)

/-- Claim C8 (corrected): each heartbeat fires only strictly after
`lastHeartbeat + heartbeatPeriod` — at `now = lastHeartbeat +
heartbeatPeriod` exactly, neither role emits, so "emits whenever the period
has elapsed" holds only with strict inequality. The client emits exactly
when `lastHeartbeat + heartbeatPeriod < now`, with no suppression. The
server additionally requires the reporting window
`reportingStartTime + reportingTimeout > now` to be open; when the window
has expired it emits nothing, and it announces the suppression exactly when
`reportToSerialMonitor` is still set, clearing that flag (and never setting
it), so the announcement happens once until activity elsewhere resets the
flag. -/
theorem claim8_heartbeat_amended :
    (∀ (e : TCPclient.Env) (s : TCPclient.State),
      (TCPclient.heartbeat e s).2 = true ↔
        s.lastHeartbeat + TCPclient.heartbeatPeriod < e.now) ∧
    (∀ (e : TCPserver.Env) (s : TCPserver.State),
      (TCPserver.heartbeat e s).2.1 = true ↔
        (s.lastHeartbeat + TCPserver.heartbeatPeriod < e.now ∧
          s.reportingStartTime + TCPserver.reportingTimeout > e.now)) ∧
    (∀ (e : TCPserver.Env) (s : TCPserver.State),
      (TCPserver.heartbeat e s).2.2 = true ↔
        (s.lastHeartbeat + TCPserver.heartbeatPeriod < e.now ∧
          ¬ s.reportingStartTime + TCPserver.reportingTimeout > e.now ∧
          s.reportToSerialMonitor = true)) ∧
    (∀ (e : TCPserver.Env) (s : TCPserver.State),
      (TCPserver.heartbeat e s).2.2 = true →
      (TCPserver.heartbeat e s).1.reportToSerialMonitor = false) ∧
    (∀ (e : TCPserver.Env) (s : TCPserver.State),
      (TCPserver.heartbeat e s).1.reportToSerialMonitor = true →
      s.reportToSerialMonitor = true) := by
  refine ⟨?_, TCPserver.sv_hb_emit_iff, TCPserver.sv_hb_announce_iff,
    TCPserver.sv_hb_announce_clears, TCPserver.sv_hb_flag⟩
  intro e s
  simp only [TCPclient.heartbeat]
  split_ifs <;> simp_all

/-- Counterexample for C8 as stated: with `lastHeartbeat = 0` and
`now = 1000 = heartbeatPeriod` the period has elapsed (`now ≥ lastHeartbeat
+ heartbeatPeriod`, the claim's own firing threshold) yet the client
heartbeat does not emit — the code requires strictly more than the
period. -/
theorem claim8_heartbeat_cex :
    clWaitingState.lastHeartbeat + TCPclient.heartbeatPeriod ≤
        clBoundaryEnv.now ∧
      (TCPclient.heartbeat clBoundaryEnv clWaitingState).2 = false := by
  exact ⟨by decide, rfl⟩

/-- Witness for C8 (amended): at time 1000 with `lastHeartbeat = 0` the
client heartbeat does not fire, matching the strict threshold. -/
theorem claim8_heartbeat_witness :
    (TCPclient.heartbeat clBoundaryEnv clWaitingState).2 = true ↔
      clWaitingState.lastHeartbeat + TCPclient.heartbeatPeriod <
        clBoundaryEnv.now :=
  claim8_heartbeat_amended.1 clBoundaryEnv clWaitingState


/-- Claim C9 (corrected): the per-poll accept diagnostic is emitted exactly
while at most 20 consecutive polls have been counted since the last reset
(and serial reporting is enabled) — so it is suppressed from the 22nd
consecutive failed poll on — and every poll increments the counter. The
counter restarts not only on a successful link-up (`WiFi.begin` success)
and on the transport-retry-to-`conn_2` transition, but ALSO whenever the
heartbeat period has passed (the heartbeat tick unconditionally resets it);
no other tick changes it. -/
theorem claim9_poll_diag_amended :
    (∀ (e : TCPserver.Env) (s : TCPserver.State),
      (TCPserver.connectToClient e s).2.2 = true ↔
        ((s.connectionState = TCPserver.ConnectionState.conn_2_wifiConnected ∧
            s.ConnTriesAfterStateChange ≤ 20 ∧
            s.reportToSerialMonitor = true) ∨
          (s.connectionState =
              TCPserver.ConnectionState.conn_3_clientDelayConnection ∧
            s.clientStopTime + TCPserver.clientConnectDelay ≤ e.now ∧
            s.reportToSerialMonitor = true))) ∧
    (∀ (e : TCPserver.Env) (s : TCPserver.State),
      s.connectionState = TCPserver.ConnectionState.conn_2_wifiConnected →
      20 < s.ConnTriesAfterStateChange →
      (TCPserver.connectToClient e s).2.2 = false) ∧
    (∀ (e : TCPserver.Env) (s : TCPserver.State),
      s.connectionState = TCPserver.ConnectionState.conn_2_wifiConnected →
      (TCPserver.connectToClient e s).1.ConnTriesAfterStateChange =
        s.ConnTriesAfterStateChange + 1) ∧
    (∀ (e : TCPserver.Env) (s : TCPserver.State),
      (TCPserver.connectToWiFi e s).2 = true → e.wifiBeginOk = true →
      (TCPserver.connectToWiFi e s).1.ConnTriesAfterStateChange = 0) ∧
    (∀ (e : TCPserver.Env) (s : TCPserver.State),
      s.connectionState = TCPserver.ConnectionState.conn_3_clientDelayConnection →
      s.clientStopTime + TCPserver.clientConnectDelay ≤ e.now →
      (TCPserver.connectToClient e s).1.ConnTriesAfterStateChange = 1) ∧
    (∀ (e : TCPserver.Env) (s : TCPserver.State),
      s.lastHeartbeat + TCPserver.heartbeatPeriod < e.now →
      (TCPserver.heartbeat e s).1.ConnTriesAfterStateChange = 0) ∧
    (∀ (e : TCPserver.Env) (s : TCPserver.State),
      s.connectionState ≠ TCPserver.ConnectionState.conn_2_wifiConnected →
      s.connectionState ≠ TCPserver.ConnectionState.conn_3_clientDelayConnection →
      (TCPserver.connectToClient e s).1.ConnTriesAfterStateChange =
        s.ConnTriesAfterStateChange) ∧
    (∀ (e : TCPserver.Env) (s : TCPserver.State),
      (TCPserver.connectToWiFi e s).2 = true → e.wifiBeginOk = false →
      (TCPserver.connectToWiFi e s).1.ConnTriesAfterStateChange =
        s.ConnTriesAfterStateChange) ∧
    (∀ (e : TCPserver.Env) (s : TCPserver.State),
      (TCPserver.connectToWiFi e s).2 = false →
      (TCPserver.connectToWiFi e s).1.ConnTriesAfterStateChange =
        s.ConnTriesAfterStateChange) ∧
    (∀ (e : TCPserver.Env) (s : TCPserver.State),
      ¬ s.lastHeartbeat + TCPserver.heartbeatPeriod < e.now →
      (TCPserver.heartbeat e s).1.ConnTriesAfterStateChange =
        s.ConnTriesAfterStateChange) ∧
    (∀ (e : TCPserver.Env) (s : TCPserver.State),
      (TCPserver.assembleClientRequest e s).ConnTriesAfterStateChange =
          s.ConnTriesAfterStateChange ∧
        (TCPserver.sendResponseToClient e s).1.ConnTriesAfterStateChange =
          s.ConnTriesAfterStateChange ∧
        (TCPserver.stopTCPconnection e s).1.ConnTriesAfterStateChange =
          s.ConnTriesAfterStateChange ∧
        (TCPserver.lastConnectionReport s).ConnTriesAfterStateChange =
          s.ConnTriesAfterStateChange) := by
  refine ⟨TCPserver.sv_conn_diag_iff, ?_, TCPserver.sv_conn_tries_poll2,
    TCPserver.sv_wifi_tries_ok, TCPserver.sv_conn_tries_retry,
    TCPserver.sv_hb_tries_reset, TCPserver.sv_conn_tries_frame,
    TCPserver.sv_wifi_tries_fail, ?_, ?_, ?_⟩
  · intro e s hc ht
    cases hb : (TCPserver.connectToClient e s).2.2
    · rfl
    · exfalso
      rcases (TCPserver.sv_conn_diag_iff e s).mp hb with ⟨h1, h2, h3⟩ | ⟨h1, h2, h3⟩
      · omega
      · rw [hc] at h1
        simp at h1
  · intro e s h
    rw [TCPserver.sv_wifi_noAttempt e s h]
  · intro e s h
    rw [TCPserver.sv_hb_notdue e s h]
  · intro e s
    refine ⟨?_, ?_, ?_, ?_⟩
    · unfold TCPserver.assembleClientRequest
      cases hi : e.incoming <;> simp only [hi] <;> (try split_ifs) <;> simp
    · unfold TCPserver.sendResponseToClient
      split_ifs <;> simp
    · unfold TCPserver.stopTCPconnection
      split_ifs <;> simp
    · unfold TCPserver.lastConnectionReport
      split_ifs <;> simp

/-- Counterexample for C9 as stated: with the diagnostic suppressed (21
consecutive failed polls) and no link-up or retry transition happening, a
due heartbeat alone resets the consecutive-poll counter to 0, after which
the very next poll emits the diagnostic again — the suppression is NOT
lifted exclusively by link-up or the transport-retry transition. -/
theorem claim9_poll_diag_cex :
    svSuppressedState.ConnTriesAfterStateChange = 21 ∧
      (TCPserver.connectToClient svHbEnv svSuppressedState).2.2 = false ∧
      (TCPserver.heartbeat svHbEnv
        svSuppressedState).1.ConnTriesAfterStateChange = 0 ∧
      (TCPserver.heartbeat svHbEnv svSuppressedState).1.connectionState =
        TCPserver.ConnectionState.conn_2_wifiConnected ∧
      (TCPserver.connectToClient svHbEnv
        (TCPserver.heartbeat svHbEnv svSuppressedState).1).2.2 = true := by
  refine ⟨rfl, ?_, ?_, rfl, ?_⟩ <;> rfl

/-- Witness for C9 (amended): the suppressed concrete state emits no
diagnostic, and a poll from it increments the counter. -/
theorem claim9_poll_diag_witness :
    (TCPserver.connectToClient svHbEnv svSuppressedState).2.2 = false ∧
      (TCPserver.connectToClient svHbEnv
          svSuppressedState).1.ConnTriesAfterStateChange =
        svSuppressedState.ConnTriesAfterStateChange + 1 :=
  ⟨claim9_poll_diag_amended.2.1 svHbEnv svSuppressedState (by decide)
      (by decide),
    claim9_poll_diag_amended.2.2.1 svHbEnv svSuppressedState (by decide)⟩

/-- Claim C10: the client's outgoing `messageCounter` is incremented only by
the `assembleServerResponse` branch that consumes a line feed; it is
untouched by the timeout branch (no byte available), by the
connection-lost branch of `connectToServer`, and by `stopTCPconnection`,
`lastConnectionReport`, `heartbeat`, `connectToWiFi` and
`sendRequestToServer`; a whole pass changes it only when a line feed was
consumed, and then by exactly 1. Consequently, in the concrete run whose
first exchange times out, the request re-sent after the teardown/report
cycle carries the same value 1230001 as the failed one. -/
theorem claim10_failed_cycle_counter :
    (∀ (e : TCPclient.Env) (s : TCPclient.State), e.incoming = none →
      (TCPclient.assembleServerResponse e s).1.messageCounter =
        s.messageCounter) ∧
    (∀ (e : TCPclient.Env) (s : TCPclient.State),
      (TCPclient.connectToServer e s).1.messageCounter = s.messageCounter) ∧
    (∀ (e : TCPclient.Env) (s : TCPclient.State),
      (TCPclient.stopTCPconnection e s).1.messageCounter = s.messageCounter ∧
        (TCPclient.lastConnectionReport s).messageCounter = s.messageCounter ∧
        (TCPclient.heartbeat e s).1.messageCounter = s.messageCounter ∧
        (TCPclient.connectToWiFi e s).1.messageCounter = s.messageCounter ∧
        (TCPclient.sendRequestToServer e s).1.messageCounter =
          s.messageCounter) ∧
    (∀ (e : TCPclient.Env) (s : TCPclient.State),
      (TCPclient.loopPass e s).1.messageCounter ≠ s.messageCounter →
      ((TCPclient.loopPass e s).2.gotLF = true ∧
        (TCPclient.loopPass e s).1.messageCounter = s.messageCounter + 1 ∧
        e.incoming = some '\n')) ∧
    ((TCPclient.logAt TCPclient.initState failedCycleEnvs 0).sentRequest =
        some 1230001 ∧
      (TCPclient.stateAt TCPclient.initState failedCycleEnvs 2).messageCounter =
        1230001 ∧
      (TCPclient.logAt TCPclient.initState failedCycleEnvs 2).sentRequest =
        some 1230001) := by
  refine ⟨?_, TCPclient.cl_server_messageCounter, ?_, ?_, ?_⟩
  · intro e s hi
    simp only [TCPclient.assembleServerResponse, hi]
    split_ifs <;> rfl
  · intro e s
    exact ⟨(TCPclient.cl_stop_frame e s).2, (TCPclient.cl_report_frame s).2.2,
      (TCPclient.cl_hb_frame e s).2.2.1, TCPclient.cl_wifi_messageCounter e s,
      (TCPclient.cl_send_frame e s).2.2⟩
  · intro e s hne
    have hp := TCPclient.cl_pass_counter e s
    cases hLF : (TCPclient.loopPass e s).2.gotLF
    · rw [hLF] at hp
      simp at hp
      exact absurd hp hne
    · refine ⟨rfl, ?_, ?_⟩
      · rw [hLF] at hp
        simpa using hp
      · have hLF2 := hLF
        rw [TCPclient.cl_log_gotLF] at hLF2
        exact ((TCPclient.cl_gotLF_iff e _).mp hLF2).2
  · exact ⟨by decide, by decide, by decide⟩

/-- Witness for C10: a concrete timed-out tick leaves the counter
unchanged. -/
theorem claim10_failed_cycle_counter_witness :
    (TCPclient.assembleServerResponse clTimeoutEnv
        clWaitingState).1.messageCounter = clWaitingState.messageCounter :=
  claim10_failed_cycle_counter.1 clTimeoutEnv clWaitingState (by decide)

/-- Claim C5 (corrected): after any run of the loop from the initial state,
the outgoing sequence counter equals its initial value 1230001 plus the
number of completed (line-feed-terminated) exchange cycles, and any two
transmitted requests separated by at least one completed exchange carry
strictly increasing (hence distinct) values. The unrestricted
no-duplication part of the claim is false: a failed exchange leaves the
counter unchanged and the next request repeats the value. -/
theorem claim5_seq_monotonic_amended :
    (∀ envs : List TCPclient.Env,
      (TCPclient.run envs TCPclient.initState).messageCounter =
        1230001 + TCPclient.countLF TCPclient.initState envs) ∧
    (∀ (envs : List TCPclient.Env) (i j k vi vj : Nat),
      i ≤ k → k < j → j < envs.length →
      (TCPclient.logAt TCPclient.initState envs i).sentRequest = some vi →
      (TCPclient.logAt TCPclient.initState envs j).sentRequest = some vj →
      (TCPclient.logAt TCPclient.initState envs k).gotLF = true →
      vi < vj) := by
  constructor
  · intro envs
    rw [TCPclient.cl_run_counter]
    rfl
  · intro envs i j k vi vj hik hkj hj hvi hvj hlf
    have hvi2 := TCPclient.cl_sent_at_val envs TCPclient.initState i vi hvi
    have hvj2 := TCPclient.cl_sent_at_val envs TCPclient.initState j vj hvj
    have hsucc := TCPclient.cl_countLF_succ envs TCPclient.initState k (by omega)
    rw [hlf] at hsucc
    simp at hsucc
    have m1 := TCPclient.cl_countLF_take_mono envs TCPclient.initState i k hik
      (by omega)
    have m2 := TCPclient.cl_countLF_take_mono envs TCPclient.initState (k+1) j
      (by omega) (by omega)
    omega

/-- Counterexample for C5 as stated: in the concrete run whose first
exchange times out, the requests transmitted at pass 0 and pass 2 both
carry the value 1230001 — two transmitted requests with the same counter
value. -/
theorem claim5_seq_monotonic_cex :
    (TCPclient.logAt TCPclient.initState failedCycleEnvs 0).sentRequest =
        some 1230001 ∧
      (TCPclient.logAt TCPclient.initState failedCycleEnvs 2).sentRequest =
        some 1230001 := by
  exact ⟨by decide, by decide⟩

/-- Witness for C5 (amended): in the concrete run whose first exchange
completes, the counter accumulates the completed cycle and the two
requests carry strictly increasing values. -/
theorem claim5_seq_monotonic_witness :
    ((TCPclient.run okRunEnvs TCPclient.initState).messageCounter =
        1230001 + TCPclient.countLF TCPclient.initState okRunEnvs) ∧
      (1230001 : Nat) < 1230002 :=
  ⟨claim5_seq_monotonic_amended.1 okRunEnvs,
    claim5_seq_monotonic_amended.2 okRunEnvs 0 2 1 1230001 1230002
      (by decide) (by decide) (by decide) (by decide) (by decide) (by decide)⟩

/-- Claim C1 (corrected): (link, both roles) after any WiFi association
attempt at pass i of a run from the initial state with monotone clock, any
later association attempt at pass j happens at
`now_j ≥ now_i + wifiConnectDelay`; (transport, client) in any pass that
performs a `client.connect` attempt without a same-pass WiFi re-association,
`now ≥ clientStopTime + clientConnectDelay` holds, `clientStopTime` being
the most recent stop / failed-attempt time (each pass either leaves it
unchanged or stamps it with the pass's `now`); (transport, server) over any
stretch of passes containing no WiFi association attempt, started in a
state satisfying the retry invariant, every accept poll happens at
`now ≥ clientStopTime + clientConnectDelay`. The unrestricted transport
half of the claim is false: a WiFi re-association re-enters
`conn_2_wifiConnected` and issues a transport attempt immediately,
possibly before the transport retry delay has elapsed. -/
theorem claim1_retry_delay_amended :
    (∀ envs : List TCPclient.Env, TCPclient.nowMonotone envs →
      ∀ i j, i < j → j < envs.length →
      (TCPclient.logAt TCPclient.initState envs i).wifiAttempt = true →
      (TCPclient.logAt TCPclient.initState envs j).wifiAttempt = true →
      TCPclient.nowAt envs i + TCPclient.wifiConnectDelay ≤
        TCPclient.nowAt envs j) ∧
    (∀ envs : List TCPserver.Env, TCPserver.nowMonotone envs →
      ∀ i j, i < j → j < envs.length →
      (TCPserver.logAt TCPserver.initState envs i).wifiAttempt = true →
      (TCPserver.logAt TCPserver.initState envs j).wifiAttempt = true →
      TCPserver.nowAt envs i + TCPserver.wifiConnectDelay ≤
        TCPserver.nowAt envs j) ∧
    (∀ (envs : List TCPclient.Env) (j : Nat), j < envs.length →
      (TCPclient.logAt TCPclient.initState envs j).connectAttempt = true →
      (TCPclient.logAt TCPclient.initState envs j).wifiAttempt = false →
      (TCPclient.stateAt TCPclient.initState envs j).clientStopTime +
        TCPclient.clientConnectDelay ≤ TCPclient.nowAt envs j) ∧
    (∀ (e : TCPclient.Env) (s : TCPclient.State),
      (TCPclient.loopPass e s).1.clientStopTime = s.clientStopTime ∨
        (TCPclient.loopPass e s).1.clientStopTime = e.now) ∧
    (∀ (envs : List TCPserver.Env) (s0 : TCPserver.State) (t0 : Nat),
      (s0.connectionState = TCPserver.ConnectionState.conn_2_wifiConnected →
        s0.clientStopTime + TCPserver.clientConnectDelay ≤ t0) →
      (∀ i, i < envs.length → t0 ≤ TCPserver.nowAt envs i) →
      TCPserver.nowMonotone envs →
      (∀ i, i < envs.length →
        (TCPserver.logAt s0 envs i).wifiAttempt = false) →
      ∀ j, j < envs.length → (TCPserver.logAt s0 envs j).pollAttempt = true →
        (TCPserver.stateAt s0 envs j).clientStopTime +
          TCPserver.clientConnectDelay ≤ TCPserver.nowAt envs j) := by
  refine ⟨?_, ?_, ?_, TCPclient.cl_pass_stopTime_or, TCPserver.sv_seg⟩
  · intro envs hm i j hij hj hai haj
    have hjlen : j ≤ envs.length := Nat.le_of_lt hj
    have hilen : i < envs.length := Nat.lt_trans hij hj
    have hne : envs.take j ≠ [] :=
      TCPclient.cl_takeNeNil envs j (by omega) hjlen
    have h0 : (TCPclient.stateAt TCPclient.initState envs j).connectionState ≠
        TCPclient.ConnectionState.conn_0_wifiConnectNow :=
      TCPclient.cl_run_ne0 (envs.take j) TCPclient.initState hne
    have hdue := TCPclient.cl_pass_attempt_due (TCPclient.envAt envs j)
      (TCPclient.stateAt TCPclient.initState envs j) h0 haj
    have hlow := TCPclient.cl_wifiTime_after envs TCPclient.initState hm i
      hilen hai j hij hjlen
    have hnw : TCPclient.nowAt envs j = (TCPclient.envAt envs j).now := rfl
    omega
  · intro envs hm i j hij hj hai haj
    have hjlen : j ≤ envs.length := Nat.le_of_lt hj
    have hilen : i < envs.length := Nat.lt_trans hij hj
    have hne : envs.take j ≠ [] :=
      TCPserver.sv_takeNeNil envs j (by omega) hjlen
    have h0 : (TCPserver.stateAt TCPserver.initState envs j).connectionState ≠
        TCPserver.ConnectionState.conn_0_wifiConnectNow :=
      TCPserver.sv_run_ne0 (envs.take j) TCPserver.initState hne
    have hdue := TCPserver.sv_pass_attempt_due (TCPserver.envAt envs j)
      (TCPserver.stateAt TCPserver.initState envs j) h0 haj
    have hlow := TCPserver.sv_wifiTime_after envs TCPserver.initState hm i
      hilen hai j hij hjlen
    have hnw : TCPserver.nowAt envs j = (TCPserver.envAt envs j).now := rfl
    omega
  · intro envs j hj hc hw
    have h2 : (TCPclient.stateAt TCPclient.initState envs j).connectionState ≠
        TCPclient.ConnectionState.conn_2_wifiConnected := by
      cases j with
      | zero =>
          have h00 : TCPclient.stateAt TCPclient.initState envs 0 =
              TCPclient.initState := rfl
          rw [h00]
          decide
      | succ k =>
          exact TCPclient.cl_run_ne2 (envs.take (k+1)) TCPclient.initState
            (TCPclient.cl_takeNeNil envs (k+1) (by omega) (by omega))
    exact TCPclient.cl_pass_transport_due (TCPclient.envAt envs j)
      (TCPclient.stateAt TCPclient.initState envs j) h2 hc hw

/-- Counterexample for C1 as stated: in the concrete client run
`c1cexEnvs`, the transport connect attempt of pass 1 fails at time 4950
(anchoring `clientStopTime = 4950`), then pass 2 — in which the lost WiFi
link re-associates — performs another transport connect attempt at time
5000, strictly before 4950 + clientConnectDelay = 5050, on a run with a
monotone clock. -/
theorem claim1_retry_delay_cex :
    (TCPclient.logAt TCPclient.initState c1cexEnvs 1).connectAttempt = true ∧
      (TCPclient.stateAt TCPclient.initState c1cexEnvs 2).clientStopTime =
        4950 ∧
      (TCPclient.logAt TCPclient.initState c1cexEnvs 2).wifiAttempt = true ∧
      (TCPclient.logAt TCPclient.initState c1cexEnvs 2).connectAttempt =
        true ∧
      TCPclient.nowAt c1cexEnvs 2 = 5000 ∧
      TCPclient.nowAt c1cexEnvs 2 <
        (TCPclient.stateAt TCPclient.initState c1cexEnvs 2).clientStopTime +
          TCPclient.clientConnectDelay ∧
      TCPclient.nowMonotone c1cexEnvs := by
  refine ⟨by decide, by decide, by decide, by decide, by decide, by decide, ?_⟩
  intro i j hij hjl
  have hj3 : j < 3 := by simpa [c1cexEnvs] using hjl
  interval_cases j <;> interval_cases i <;> decide

/-- Witness for C1 (amended): the two association attempts of the concrete
run `c1wEnvs` (initial attempt at 0, retry at 5000) respect the link retry
delay. -/
theorem claim1_retry_delay_witness :
    TCPclient.nowAt c1wEnvs 0 + TCPclient.wifiConnectDelay ≤
      TCPclient.nowAt c1wEnvs 1 :=
  claim1_retry_delay_amended.1 c1wEnvs
    (by
      intro i j hij hjl
      have hj2 : j < 2 := by simpa [c1wEnvs] using hjl
      interval_cases j <;> interval_cases i <;> decide)
    0 1 (by decide) (by decide) (by decide) (by decide)
